import Mathlib

/-!
Verification of the account-management core of kiro-manager-wb
(`accounts.ts`): a shallow embedding of the credential store, the OIDC
refresh client, the ban probe, the machine-id rotation and the account
switcher, together with theorems about the specified properties.

Conventions of the embedding:
* Timestamps (`Date` values, ISO strings in the source) are integers in
  milliseconds since the epoch.
* JavaScript optional / possibly-`undefined` fields are `Option` values;
  JS truthiness of a string field (`undefined` and `""` are falsy) is
  `truthyO`; `x || d` on strings is `jsOr`, on numbers `jsOrNat`.
* Network calls are modeled by passing the would-be wire outcome as an
  explicit argument and counting the calls that are actually made.
* File-system state (token files, the Kiro auth token, the machine-id
  file, usage stats and the usage cache) is an explicit `SwitchState`
  threaded through the operations.
-/

/-- A single character, written via its code point to keep literals plain:
the apostrophe. -/
def aposChar : Char := Char.ofNat 39

/-- The at-sign character, used by the e-mail matching in `deleteAccount`. -/
def atChar : Char := Char.ofNat 64

/-- `startsB n h` holds when the list `n` is an initial segment of `h`.
Models the prefix test underlying `String.prototype.includes`. -/
def startsB : List Char → List Char → Bool
  | [], _ => true
  | _ :: _, [] => false
  | a :: as, b :: bs => a == b && startsB as bs

/-- `subB n h` holds when `n` occurs contiguously inside `h`. -/
def subB : List Char → List Char → Bool
  | n, [] => n.isEmpty
  | n, b :: bs => startsB n (b :: bs) || subB n bs

/-- JavaScript `s.includes(sub)`. -/
def strIncludes (s sub : String) : Bool := subB sub.toList s.toList

/-- JavaScript `s.startsWith(p)`. -/
def strStartsWith (s p : String) : Bool := startsB p.toList s.toList

/-- JavaScript `s.endsWith(p)`. -/
def strEndsWith (s p : String) : Bool := startsB p.toList.reverse s.toList.reverse

/-- Code-point comparison of strings; models the `localeCompare`-based
ordering used for the account list (the exact collation is irrelevant to
every claim, only that some total comparison is applied). -/
def charListLe : List Char → List Char → Bool
  | [], _ => true
  | _ :: _, [] => false
  | a :: as, b :: bs =>
    if a.toNat < b.toNat then true
    else if b.toNat < a.toNat then false
    else charListLe as bs

def strLe (s t : String) : Bool := charListLe s.toList t.toList

/-- JS truthiness of an optional string: `undefined` and `""` are falsy. -/
def truthyO (o : Option String) : Bool :=
  match o with
  | some s => !s.isEmpty
  | none => false

/-- JavaScript `x || d` for an optional string `x` and default `d`. -/
def jsOr (o : Option String) (d : String) : String :=
  match o with
  | some s => if s.isEmpty then d else s
  | none => d

/-- JavaScript `x || d` for an optional number `x` (0 is falsy). -/
def jsOrNat (o : Option Nat) (d : Nat) : Nat :=
  match o with
  | some n => if n = 0 then d else n
  | none => d

/-- The part of an e-mail address before the first at-sign:
JavaScript `email.split(String.fromCharCode(64))[0]`. -/
def takeUntilAt : List Char → List Char
  | [] => []
  | c :: cs => if c == atChar then [] else c :: takeUntilAt cs

def emailLocal (s : String) : String := String.mk (takeUntilAt s.toList)

-- ===========================================================================
-- SSO OIDC error taxonomy and refresh client (`accounts.ts` lines 542-672)
-- ===========================================================================

/-- `OIDCErrorType` from `accounts.ts`. -/
inductive OIDCErrorType where
  | InvalidGrantException
  | AccessDeniedException
  | ExpiredTokenException
  | InvalidClientException
  | UnauthorizedClientException
  | InvalidRequestException
  | SlowDownException
  | AuthorizationPendingException
  | InternalServerException
  | NetworkError
  | UnknownError
deriving DecidableEq

/-- Result of `refreshOIDCToken`. -/
structure RefreshResult where
  success : Bool
  accessToken : Option String := none
  refreshToken : Option String := none
  expiresIn : Option Nat := none
  error : Option OIDCErrorType := none
  errorMessage : Option String := none
  isBanned : Option Bool := none
  isInvalidCredentials : Option Bool := none
  isRateLimited : Option Bool := none
deriving DecidableEq

/-- The ban-message literal containing an apostrophe, built from its
characters: `couldn`…`t process your request`. -/
def msgCouldntProcess : String :=
  "couldn" ++ String.singleton aposChar ++ "t process your request"

def msgUnableToRefreshSession : String := "unable to refresh your session"

/-- `isBlockedAccessError` (`accounts.ts` lines 575-587): the pure ban
classifier. The source is a sequence of early `return true`s, written here
as the equivalent disjunction. -/
def isBlockedAccessError (error : Option OIDCErrorType) (message : Option String) : Bool :=
  (error == some OIDCErrorType.AccessDeniedException) ||
  (match message with
   | some m =>
     strIncludes m "Kiro access not available" ||
     strIncludes m "NewUserAccessPausedError" ||
     strIncludes m "account is blocked" ||
     strIncludes m "account is suspended" ||
     strIncludes m msgCouldntProcess ||
     strIncludes m "account issue" ||
     (strIncludes m "unable to refresh" && error == some OIDCErrorType.InvalidGrantException)
   | none => false)

/-- `isBadAuthIssue` (`accounts.ts` lines 590-598). -/
def isBadAuthIssue (error : Option OIDCErrorType) : Bool :=
  error == some OIDCErrorType.InvalidGrantException ||
  error == some OIDCErrorType.ExpiredTokenException ||
  error == some OIDCErrorType.InvalidClientException ||
  error == some OIDCErrorType.UnauthorizedClientException

/-- The parsed JSON body of a broker error envelope; the source casts
`json.error` to `OIDCErrorType`, so the field is typed directly (an
unrecognized or absent string behaves as `UnknownError` downstream). -/
structure BrokerJson where
  error : Option OIDCErrorType := none
  error_description : Option String := none
  message : Option String := none
deriving DecidableEq

/-- A broker HTTP error body: JSON (with the raw text kept for the
`data` fallback of the message) or a non-JSON payload. -/
inductive BrokerBody where
  | jsonBody (j : BrokerJson) (raw : String)
  | nonJson (raw : String)
deriving DecidableEq

/-- `parseOIDCError` (`accounts.ts` lines 601-616). -/
def parseOIDCError (statusCode : Nat) (body : BrokerBody) : OIDCErrorType × String :=
  match body with
  | BrokerBody.jsonBody j raw =>
    (j.error.getD OIDCErrorType.UnknownError, jsOr j.error_description (jsOr j.message raw))
  | BrokerBody.nonJson raw =>
    if statusCode = 400 then (OIDCErrorType.InvalidRequestException, raw)
    else if statusCode = 401 then (OIDCErrorType.InvalidClientException, raw)
    else if statusCode = 403 then (OIDCErrorType.AccessDeniedException, raw)
    else if statusCode = 429 then (OIDCErrorType.SlowDownException, raw)
    else if 500 ≤ statusCode then (OIDCErrorType.InternalServerException, raw)
    else (OIDCErrorType.UnknownError, raw)

/-- The outcome of the `POST /token` exchange as it would come off the
wire: a 200 with parsed fields, a 200 whose body fails to parse, an HTTP
error with its body, or a transport error. -/
inductive BrokerOutcome where
  | success (accessToken refreshToken : Option String) (expiresIn : Option Nat)
  | parseFail
  | httpError (statusCode : Nat) (body : BrokerBody)
  | netError (msg : String)
deriving DecidableEq

/-- `refreshOIDCToken` (`accounts.ts` lines 618-672), as a pure function of
the wire outcome. On 200 the `expiresIn` default is `json.expiresIn || 3600`;
on an HTTP error the result is classified through `parseOIDCError` and
`isBlockedAccessError`. -/
def refreshOIDCToken (outcome : BrokerOutcome) : RefreshResult :=
  match outcome with
  | BrokerOutcome.success a r e =>
    { success := true, accessToken := a, refreshToken := r, expiresIn := some (jsOrNat e 3600) }
  | BrokerOutcome.parseFail =>
    { success := false, error := some OIDCErrorType.UnknownError,
      errorMessage := some "Failed to parse response" }
  | BrokerOutcome.httpError sc body =>
    let p := parseOIDCError sc body
    { success := false, error := some p.1, errorMessage := some p.2,
      isBanned := some (isBlockedAccessError (some p.1) (some p.2)),
      isInvalidCredentials := some (p.1 == OIDCErrorType.InvalidClientException ||
                                    p.1 == OIDCErrorType.UnauthorizedClientException),
      isRateLimited := some (p.1 == OIDCErrorType.SlowDownException) }
  | BrokerOutcome.netError m =>
    { success := false, error := some OIDCErrorType.NetworkError, errorMessage := some m }

-- ===========================================================================
-- CodeWhisperer ban probe (`accounts.ts` lines 681-821)
-- ===========================================================================

structure BanUsageData where
  currentUsage : Int
  usageLimit : Int
  percentageUsed : Int
  resetDate : Option String := none
deriving DecidableEq

structure BanCheckResult where
  isBanned : Bool
  reason : Option String := none
  message : Option String := none
  error : Option String := none
  usageData : Option BanUsageData := none
deriving DecidableEq

/-- The outcome of the `GET /getUsageLimits` probe as it would come off the
wire: a 200 with the (possibly partial) first `limits` entry, a parsed 403
body, another status, an unparsable body, a transport error, or a timeout. -/
inductive BanApiOutcome where
  | ok (currentUsage usageLimit : Option Int) (nextDateReset : Option String)
  | forbidden (reason : Option String) (message : Option String)
  | otherStatus (code : Nat) (message : Option String) (raw : String)
  | parseError (raw : String)
  | netError (msg : String)
  | timeout
deriving DecidableEq

/-- JS `Math.round((cu / ul) * 100)` for nonnegative integers, used only
when both operands are truthy. -/
def roundPct (cu ul : Int) : Int := (200 * cu + ul) / (2 * ul)

/-- `checkAccountBanViaAPI` (`accounts.ts` lines 702-821) as a pure function
of the wire outcome. A 403 with reason `TEMPORARILY_SUSPENDED` is a ban;
`FEATURE_NOT_SUPPORTED`, token-invalid messages, other statuses, parse
errors, transport errors and timeouts are treated as not banned. -/
def checkAccountBanViaAPI (o : BanApiOutcome) : BanCheckResult :=
  match o with
  | BanApiOutcome.ok cu ul reset =>
    { isBanned := false,
      usageData := some
        { currentUsage := cu.getD (-1), usageLimit := ul.getD 500,
          percentageUsed :=
            if cu.getD 0 ≠ 0 ∧ ul.getD 0 ≠ 0 then roundPct (cu.getD 0) (ul.getD 0) else 0,
          resetDate := reset } }
  | BanApiOutcome.forbidden reason message =>
    let r := jsOr reason ""
    let m := jsOr message ""
    if r = "TEMPORARILY_SUSPENDED" then
      { isBanned := true, reason := some "TEMPORARILY_SUSPENDED",
        message := some (if m.isEmpty then "Account is temporarily suspended" else m) }
    else if r = "FEATURE_NOT_SUPPORTED" then
      { isBanned := false, reason := some "FEATURE_NOT_SUPPORTED",
        message := some "Usage limits feature not supported for this account" }
    else if strIncludes m "invalid" then
      { isBanned := false, error := some "InvalidToken", message := some m }
    else
      { isBanned := strIncludes r "SUSPENDED" || strIncludes m.toLower "suspend",
        reason := some r, message := some m, error := some "AccessDeniedException" }
  | BanApiOutcome.otherStatus code message raw =>
    { isBanned := false, error := some ("HTTP " ++ toString code),
      message := some (jsOr message raw) }
  | BanApiOutcome.parseError raw =>
    { isBanned := false, error := some "ParseError", message := some raw }
  | BanApiOutcome.netError m =>
    { isBanned := false, error := some "NetworkError", message := some m }
  | BanApiOutcome.timeout =>
    { isBanned := false, error := some "Timeout", message := some "Request timed out" }

-- ===========================================================================
-- Data model: token files, the Kiro auth token, usage stats, the usage cache
-- ===========================================================================

/-- A per-account token file (`TokenData` in `types.ts` as used by
`accounts.ts`): underscore-prefixed source fields keep their name without
the underscore (`_clientId` is `clientId`, etc.). -/
structure TokenData where
  accountName : Option String := none
  email : Option String := none
  accessToken : Option String := none
  refreshToken : Option String := none
  expiresAt : Option Int := none
  expiresIn : Option Nat := none
  clientId : Option String := none
  clientSecret : Option String := none
  clientSecretExpiresAt : Option Int := none
  clientIdHash : Option String := none
  authMethod : Option String := none
  provider : Option String := none
  region : Option String := none
  machineId : Option String := none
deriving DecidableEq

/-- One file of the tokens directory: its name and parsed contents. -/
structure AccountFile where
  filename : String
  tokenData : TokenData
deriving DecidableEq

/-- The Kiro auth token file written by `writeKiroToken` (the
ActiveSession record). -/
structure KiroToken where
  accessToken : Option String := none
  refreshToken : Option String := none
  expiresAt : Option Int := none
  clientIdHash : String := ""
  authMethod : String := "IdC"
  provider : String := "BuilderId"
  region : String := "us-east-1"
deriving DecidableEq

/-- The client-registration companion record keyed by `clientIdHash`. -/
structure ClientRecord where
  clientId : String
  clientSecret : String
  expiresAt : Int
deriving DecidableEq

/-- One entry of the usage-stats store (`loadUsageStats`). -/
structure UsageStat where
  count : Nat := 0
  lastUsed : Option Int := none
  limit : Option Nat := none
deriving DecidableEq

/-- One entry of the per-account usage cache
(`getCachedAccountUsage` / `getAllCachedUsage`). -/
structure CachedUsage where
  currentUsage : Option Int := none
  usageLimit : Option Int := none
  percentageUsed : Option Int := none
  daysRemaining : Option Int := none
  stale : Bool := false
  isBanned : Option Bool := none
  banReason : Option String := none
  suspended : Option Bool := none
deriving DecidableEq

/-- The `AccountUsage` record surfaced to callers. -/
structure AccountUsage where
  currentUsage : Option Int := none
  usageLimit : Option Int := none
  percentageUsed : Option Int := none
  daysRemaining : Option Int := none
  loading : Bool := false
  isBanned : Option Bool := none
  banReason : Option String := none
  suspended : Option Bool := none
deriving DecidableEq

/-- The whole observable file-system state threaded through the
operations: the tokens directory, the Kiro auth token file, the
machine-id file, usage stats, the usage cache, the client companion
files and the timestamped backups of the Kiro auth token. -/
structure SwitchState where
  store : List AccountFile
  kiroToken : Option KiroToken := none
  machineIdFile : Option String := none
  usageStats : List (String × UsageStat) := []
  usageCache : List (String × CachedUsage) := []
  clientFiles : List (String × ClientRecord) := []
  backups : List KiroToken := []
deriving DecidableEq

/-- Association-list lookup (JS object property access). -/
def alistLookup {α : Type} (l : List (String × α)) (k : String) : Option α :=
  (l.find? (fun p => p.1 == k)).map (fun p => p.2)

/-- Association-list overwrite-or-append (JS object property assignment). -/
def alistUpsert {α : Type} (l : List (String × α)) (k : String) (v : α) : List (String × α) :=
  if (l.find? (fun p => p.1 == k)).isSome then
    l.map (fun p => if p.1 = k then (k, v) else p)
  else l ++ [(k, v)]

/-- Association-list key removal (JS `delete obj[k]`). -/
def alistErase {α : Type} (l : List (String × α)) (k : String) : List (String × α) :=
  l.filter (fun p => !(p.1 == k))

-- Timing constants (`accounts.ts` lines 252-254), in seconds.
def AUTH_TOKEN_INVALIDATION_OFFSET_SECONDS : Int := 3 * 60
def REFRESH_BEFORE_EXPIRY_SECONDS : Int := 10 * 60

/-- `isTokenExpired` (`accounts.ts` lines 257-262): a token with no
`expiresAt` is expired; otherwise compare against `now` plus the offset. -/
def isTokenExpired (td : TokenData) (offsetSeconds : Int) (now : Int) : Bool :=
  match td.expiresAt with
  | none => true
  | some e => decide (e ≤ now + offsetSeconds * 1000)

/-- `tokenNeedsRefresh` (`accounts.ts` lines 265-267). -/
def tokenNeedsRefresh (td : TokenData) (now : Int) : Bool :=
  isTokenExpired td REFRESH_BEFORE_EXPIRY_SECONDS now

/-- `isTokenTrulyInvalid` (`accounts.ts` lines 270-276): expired more
than three minutes ago (or no `expiresAt` at all). -/
def isTokenTrulyInvalid (td : TokenData) (now : Int) : Bool :=
  match td.expiresAt with
  | none => true
  | some e => decide (e + AUTH_TOKEN_INVALIDATION_OFFSET_SECONDS * 1000 < now)

/-- `getExpiresInText` (`accounts.ts` lines 278-294). -/
def getExpiresInText (td : TokenData) (now : Int) : String :=
  match td.expiresAt with
  | none => "?"
  | some e =>
    let diffMs := e - now
    if diffMs ≤ 0 then "Exp"
    else
      let diffMinutes := diffMs / 1000 / 60
      if diffMinutes < 60 then toString diffMinutes ++ "m"
      else
        let diffHours := diffMinutes / 60
        if diffHours < 24 then toString diffHours ++ "h"
        else toString (diffHours / 24) ++ "d"

/-- SHA-1 of the client id, modeled as an opaque injective tag: no claim
depends on digest values, only on the hash being a function of the id. -/
def generateClientIdHash (clientId : String) : String := "sha1-" ++ clientId

-- ===========================================================================
-- `loadAccounts` and the usage-cache readers (`accounts.ts` lines 93-233)
-- ===========================================================================

/-- The unknown-usage placeholder used when no (fresh) cache entry exists
(`currentUsage = -1` indicates unknown). -/
def unknownUsage : AccountUsage :=
  { currentUsage := some (-1), usageLimit := some 500, percentageUsed := some 0,
    daysRemaining := some (-1), loading := false }

/-- The usage derivation of `loadAccounts` (`accounts.ts` lines 119-156):
a non-stale cache entry is copied; a stale entry with the ban flag still
reports the ban (with defaults for the numbers, and without the
`suspended` field); anything else is unknown. -/
def accountUsageFromCache (cached : Option CachedUsage) : AccountUsage :=
  match cached with
  | some c =>
    if !c.stale then
      { currentUsage := c.currentUsage, usageLimit := c.usageLimit,
        percentageUsed := c.percentageUsed, daysRemaining := c.daysRemaining,
        loading := false, isBanned := c.isBanned, banReason := c.banReason,
        suspended := c.suspended }
    else if c.isBanned == some true then
      { currentUsage := some (c.currentUsage.getD (-1)),
        usageLimit := some (c.usageLimit.getD 500),
        percentageUsed := some (c.percentageUsed.getD 0),
        daysRemaining := some (c.daysRemaining.getD (-1)),
        loading := false, isBanned := some true, banReason := c.banReason }
    else unknownUsage
  | none => unknownUsage

/-- `loadSingleAccountUsage` (`accounts.ts` lines 191-228): the ban flag
is honored first, even on a stale entry; then a non-stale entry is
copied; otherwise the unknown placeholder is returned. -/
def loadSingleAccountUsage (cached : Option CachedUsage) : AccountUsage :=
  match cached with
  | some c =>
    if c.isBanned == some true then
      { currentUsage := some (c.currentUsage.getD (-1)),
        usageLimit := some (c.usageLimit.getD 500),
        percentageUsed := some (c.percentageUsed.getD 0),
        daysRemaining := some (c.daysRemaining.getD (-1)),
        loading := false, isBanned := some true, banReason := c.banReason,
        suspended := c.suspended }
    else if !c.stale then
      { currentUsage := c.currentUsage, usageLimit := c.usageLimit,
        percentageUsed := c.percentageUsed, daysRemaining := c.daysRemaining,
        loading := false, isBanned := c.isBanned, banReason := c.banReason,
        suspended := c.suspended }
    else unknownUsage
  | none => unknownUsage

/-- One row of the list built by `loadAccounts`. -/
structure AccountInfo where
  filename : String
  tokenData : TokenData
  isActive : Bool
  isExpired : Bool
  needsRefresh : Bool
  expiresInText : String
  usageCount : Nat
  tokenLimit : Nat
  usage : AccountUsage
deriving DecidableEq

/-- The row `loadAccounts` builds for one token file (`accounts.ts`
lines 106-169). `isActive` compares the current Kiro token's refresh
token with the file's (strict equality, so two absent tokens compare
equal, as in the source). -/
def mkAccountInfo (st : SwitchState) (now : Int) (a : AccountFile) : AccountInfo :=
  let accountName := jsOr a.tokenData.accountName a.filename
  { filename := a.filename
    tokenData := a.tokenData
    isActive := (st.kiroToken.bind KiroToken.refreshToken) == a.tokenData.refreshToken
    isExpired := isTokenExpired a.tokenData 0 now
    needsRefresh := tokenNeedsRefresh a.tokenData now
    expiresInText := getExpiresInText a.tokenData now
    usageCount :=
      match alistLookup st.usageStats accountName with
      | some s => s.count
      | none => 0
    tokenLimit :=
      match alistLookup st.usageStats accountName with
      | some s => jsOrNat s.limit 500
      | none => 500
    usage := accountUsageFromCache (alistLookup st.usageCache accountName) }

/-- The active-first-then-name comparator of `loadAccounts`
(`accounts.ts` lines 175-179), as a `should come no later than`
boolean. -/
def accountLe (a b : AccountInfo) : Bool :=
  if a.isActive then true
  else if b.isActive then false
  else strLe (jsOr a.tokenData.accountName "") (jsOr b.tokenData.accountName "")

/-- Stable insertion used to model the (stable) `Array.prototype.sort`. -/
def insertSorted {α : Type} (le : α → α → Bool) (x : α) : List α → List α
  | [] => [x]
  | y :: ys => if le x y then x :: y :: ys else y :: insertSorted le x ys

def insertionSort {α : Type} (le : α → α → Bool) : List α → List α
  | [] => []
  | x :: xs => insertSorted le x (insertionSort le xs)

/-- `loadAccounts` (`accounts.ts` lines 93-182): read every
`token-*.json` file of the tokens directory, build its row, and sort
active-first then by name. -/
def loadAccountsM (st : SwitchState) (now : Int) : List AccountInfo :=
  let files := st.store.filter
    (fun a => strStartsWith a.filename "token-" && strEndsWith a.filename ".json")
  insertionSort accountLe (files.map (mkAccountInfo st now))

/-- The account-matching predicate shared by `switchToAccount`,
`refreshAccountToken` and `checkAccountHealth`: exact `accountName`
match, or the file name contains the query. -/
def matchesAccount (name : String) (a : AccountInfo) : Bool :=
  a.tokenData.accountName == some name || strIncludes a.filename name

/-- The richer matching of `deleteAccount` (`accounts.ts` lines 896-902). -/
def matchesDelete (name : String) (a : AccountInfo) : Bool :=
  a.filename == name ||
  a.tokenData.accountName == some name ||
  a.tokenData.email == some name ||
  strIncludes a.filename name ||
  (truthyO a.tokenData.email && strIncludes name (emailLocal (a.tokenData.email.getD "")))

/-- `incrementUsage` (`accounts.ts` lines 83-91). -/
def incrementUsage (accountName : String) (now : Int)
    (stats : List (String × UsageStat)) : List (String × UsageStat) :=
  match alistLookup stats accountName with
  | some s => alistUpsert stats accountName { s with count := s.count + 1, lastUsed := some now }
  | none => stats ++ [(accountName, { count := 1, lastUsed := some now })]

-- ===========================================================================
-- Machine-id rotation (`accounts.ts` lines 20-81)
-- ===========================================================================

/-- `getAccountMachineId` (`accounts.ts` lines 74-81): a stored (truthy)
`_machineId` is returned unchanged; otherwise a fresh random id is
generated — the randomness of `generateMachineId()` is modeled by the
explicit `fresh` argument. -/
def getAccountMachineId (td : TokenData) (fresh : String) : String :=
  if truthyO td.machineId then td.machineId.getD "" else fresh

-- ===========================================================================
-- `refreshAccountToken` (`accounts.ts` lines 464-540)
-- ===========================================================================

/-- Presence of the three refresh credentials (JS truthiness), the
precondition checked by both `refreshAccountToken` (line 483) and
`switchToAccount` (line 326). -/
def credsB (td : TokenData) : Bool :=
  truthyO td.refreshToken && truthyO td.clientId && truthyO td.clientSecret

/-- Result of `refreshAccountToken`. -/
structure RefreshAccountResult where
  success : Bool
  error : Option OIDCErrorType := none
  errorMessage : Option String := none
  isBanned : Option Bool := none
  isInvalidCredentials : Option Bool := none
deriving DecidableEq

/-- The token-file update written by a successful refresh (`accounts.ts`
lines 525-531, also lines 1000-1006): spread of the old record with new
`accessToken`, `refreshToken` (kept when the response omits one),
`expiresAt = now + (expiresIn || 3600) seconds` and `expiresIn`. -/
def refreshedTokenData (td : TokenData) (rr : RefreshResult) (now : Int) : TokenData :=
  { td with
    accessToken := rr.accessToken
    refreshToken := if truthyO rr.refreshToken then rr.refreshToken else td.refreshToken
    expiresAt := some (now + (jsOrNat rr.expiresIn 3600 : Int) * 1000)
    expiresIn := rr.expiresIn }

/-- `refreshAccountToken` (`accounts.ts` lines 464-540), in the
`returnDetails` form. Returns the detailed result, the tokens directory
after the call, and the number of network calls made. The wire outcome
the broker would produce is the explicit `outcome` argument. -/
def refreshAccountToken (st : SwitchState) (accountName : String) (now : Int)
    (outcome : BrokerOutcome) : RefreshAccountResult × List AccountFile × Nat :=
  match (loadAccountsM st now).find? (matchesAccount accountName) with
  | none =>
    ({ success := false, error := some OIDCErrorType.UnknownError,
       errorMessage := some "Account not found" }, st.store, 0)
  | some account =>
    let td := account.tokenData
    if credsB td = false then
      ({ success := false, error := some OIDCErrorType.InvalidClientException,
         errorMessage := some "Missing credentials", isInvalidCredentials := some true },
       st.store, 0)
    else
      let result := refreshOIDCToken outcome
      if result.success = false then
        ({ success := false, error := result.error, errorMessage := result.errorMessage,
           isBanned := result.isBanned, isInvalidCredentials := result.isInvalidCredentials },
         st.store, 1)
      else
        let updated := refreshedTokenData td result now
        ({ success := true },
         st.store.map (fun a =>
           if a.filename = account.filename then { a with tokenData := updated } else a),
         1)

-- ===========================================================================
-- `writeKiroToken` and activation (`accounts.ts` lines 384-454)
-- ===========================================================================

/-- The Kiro auth token contents `writeKiroToken` materializes from a
token file (`accounts.ts` lines 416-428). -/
def materializeKiro (td : TokenData) : KiroToken :=
  { accessToken := td.accessToken
    refreshToken := td.refreshToken
    expiresAt := td.expiresAt
    clientIdHash :=
      jsOr td.clientIdHash
        (if truthyO td.clientId then generateClientIdHash (td.clientId.getD "") else "")
    authMethod := jsOr td.authMethod "IdC"
    provider := jsOr td.provider "BuilderId"
    region := jsOr td.region "us-east-1" }

/-- `writeKiroToken` (`accounts.ts` lines 402-454): back up the previous
Kiro auth token, write the new one, and (when the credentials are
present) write the client companion file keyed by the client-id hash
with a 90-day default expiry. A file-system failure is modeled as an
atomic failure (`writeOk = false`) leaving the state unchanged. -/
def writeKiroToken (st : SwitchState) (td : TokenData) (now : Int) (writeOk : Bool) :
    Bool × SwitchState :=
  if writeOk then
    let st1 :=
      match st.kiroToken with
      | some old => { st with backups := st.backups ++ [old] }
      | none => st
    let kiro := materializeKiro td
    let st2 := { st1 with kiroToken := some kiro }
    let clientData : ClientRecord :=
      { clientId := td.clientId.getD "", clientSecret := td.clientSecret.getD "",
        expiresAt := (td.clientSecretExpiresAt).getD (now + 90 * 24 * 60 * 60 * 1000) }
    let st3 :=
      if kiro.clientIdHash ≠ "" ∧ truthyO td.clientId = true ∧ truthyO td.clientSecret = true then
        { st2 with clientFiles := alistUpsert st2.clientFiles kiro.clientIdHash clientData }
      else st2
    (true, st3)
  else (false, st)

/-- Result of `switchToAccount` (the `returnDetails` form). -/
structure SwitchAccountResult where
  success : Bool
  error : Option OIDCErrorType := none
  errorMessage : Option String := none
  isBanned : Option Bool := none
deriving DecidableEq

/-- Oracle inputs of one `switchToAccount` call: the clock, the broker
outcome the refresh would see, the probe outcome the ban check would
see, the id `generateMachineId()` would draw, and whether the Kiro
token write succeeds. -/
structure SwitchEnv where
  now : Int
  brokerOutcome : BrokerOutcome
  banOutcome : BanApiOutcome
  freshMachineId : String
  writeOk : Bool
deriving DecidableEq

/-- The activation tail of `switchToAccount` (`accounts.ts` lines
384-399): set the machine-id file to the account's id (rotating it),
persist a freshly generated id on the token file when the record had
none, write the Kiro auth token, and on success bump the usage
counter. -/
def activateAndWrite (st : SwitchState) (fileName : String) (td : TokenData)
    (env : SwitchEnv) : SwitchAccountResult × SwitchState :=
  let accountMachineId := getAccountMachineId td env.freshMachineId
  let st1 : SwitchState := { st with machineIdFile := some accountMachineId }
  let td1 : TokenData :=
    if truthyO td.machineId then td else { td with machineId := some accountMachineId }
  let st2 : SwitchState :=
    if truthyO td.machineId then st1
    else
      { st1 with store := st1.store.map (fun a =>
          if a.filename = fileName then { a with tokenData := td1 } else a) }
  let w := writeKiroToken st2 td1 env.now env.writeOk
  if w.1 then
    ({ success := true },
     { w.2 with usageStats := incrementUsage (jsOr td1.accountName fileName) env.now w.2.usageStats })
  else
    ({ success := false, errorMessage := some "Failed to write token" }, w.2)

/-- The output of one `switchToAccount` call: the detailed result, the
final state, and how many times the ban probe was contacted. -/
structure SwitchOutcome where
  result : SwitchAccountResult
  state : SwitchState
  probeCalls : Nat
deriving DecidableEq

/-- `switchToAccount` (`accounts.ts` lines 307-400), in the
`returnDetails` form. Resolve the target; with credentials present,
refresh first; on refresh success re-read the token file and run the
ban probe, aborting when it reports a ban; on a fatal refresh failure
(ban classification or `InvalidGrantException`) abort; on any other
refresh failure fall back to the stored token unless it is truly
invalid; finally rotate the machine id and write the Kiro auth token. -/
def switchToAccount (st : SwitchState) (accountName : String) (env : SwitchEnv) :
    SwitchOutcome :=
  match (loadAccountsM st env.now).find? (matchesAccount accountName) with
  | none => ⟨{ success := false, errorMessage := some "Account not found" }, st, 0⟩
  | some account =>
    if credsB account.tokenData then
      let r := refreshAccountToken st accountName env.now env.brokerOutcome
      let st1 : SwitchState := { st with store := r.2.1 }
      if r.1.success then
        let tdNew :=
          ((st1.store.find? (fun a => a.filename == account.filename)).map
            AccountFile.tokenData).getD account.tokenData
        let banCheck := checkAccountBanViaAPI env.banOutcome
        if banCheck.isBanned then
          ⟨{ success := false, error := some OIDCErrorType.AccessDeniedException,
             errorMessage := some (jsOr banCheck.message "Account is banned (TEMPORARILY_SUSPENDED)"),
             isBanned := some true }, st1, 1⟩
        else
          let a2 := activateAndWrite st1 account.filename tdNew env
          ⟨a2.1, a2.2, 1⟩
      else if r.1.isBanned == some true then
        ⟨{ success := false, error := r.1.error, errorMessage := some "Account is banned",
           isBanned := some true }, st1, 0⟩
      else if r.1.error == some OIDCErrorType.InvalidGrantException then
        ⟨{ success := false, error := r.1.error, errorMessage := r.1.errorMessage,
           isBanned := some false }, st1, 0⟩
      else if isTokenTrulyInvalid account.tokenData env.now then
        ⟨{ success := false, error := r.1.error, errorMessage := r.1.errorMessage,
           isBanned := r.1.isBanned }, st1, 0⟩
      else
        let a2 := activateAndWrite st1 account.filename account.tokenData env
        ⟨a2.1, a2.2, 0⟩
    else
      let a2 := activateAndWrite st account.filename account.tokenData env
      ⟨a2.1, a2.2, 0⟩

-- ===========================================================================
-- `deleteAccount` (`accounts.ts` lines 892-946)
-- ===========================================================================

/-- `deleteAccount` (`accounts.ts` lines 892-946): resolve the target
with the richer matching; an unresolved name reports an error and
returns `false`; otherwise (after the optional confirmation) the token
file is removed and the usage-stats entries for the account name and
the e-mail are pruned. -/
def deleteAccount (st : SwitchState) (accountName : String)
    (skipConfirm : Bool) (confirmDelete : Bool) (now : Int) : Bool × SwitchState :=
  match (loadAccountsM st now).find? (matchesDelete accountName) with
  | none => (false, st)
  | some account =>
    if skipConfirm = false ∧ confirmDelete = false then (false, st)
    else
      let store1 := st.store.eraseP (fun a => a.filename == account.filename)
      let accName := jsOr account.tokenData.accountName (jsOr account.tokenData.email accountName)
      let stats1 := alistErase st.usageStats accName
      let stats2 :=
        if truthyO account.tokenData.email = true ∧
           (alistLookup stats1 (account.tokenData.email.getD "")).isSome then
          alistErase stats1 (account.tokenData.email.getD "")
        else stats1
      (true, { st with store := store1, usageStats := stats2 })

-- ===========================================================================
-- `checkAccountHealth` (`accounts.ts` lines 948-1027)
-- ===========================================================================

structure AccountHealthStatus where
  accountName : String
  isHealthy : Bool
  isBanned : Bool
  isExpired : Bool
  hasCredentials : Bool
  error : Option OIDCErrorType := none
  errorMessage : Option String := none
deriving DecidableEq

/-- `checkAccountHealth` (`accounts.ts` lines 959-1027): attempt a
refresh; on success persist the refreshed fields (same update as
`refreshAccountToken`), else classify the failure. Returns the status
and the tokens directory after the call. -/
def checkAccountHealth (st : SwitchState) (accountName : String) (now : Int)
    (outcome : BrokerOutcome) : AccountHealthStatus × List AccountFile :=
  match (loadAccountsM st now).find? (matchesAccount accountName) with
  | none =>
    ({ accountName := accountName, isHealthy := false, isBanned := false, isExpired := false,
       hasCredentials := false, errorMessage := some "Account not found" }, st.store)
  | some account =>
    let td := account.tokenData
    if (truthyO td.clientId && truthyO td.clientSecret && truthyO td.refreshToken) = false then
      ({ accountName := accountName, isHealthy := false, isBanned := false,
         isExpired := account.isExpired, hasCredentials := false,
         errorMessage := some "Missing credentials (clientId/clientSecret)" }, st.store)
    else
      let result := refreshOIDCToken outcome
      if result.success then
        ({ accountName := accountName, isHealthy := true, isBanned := false,
           isExpired := false, hasCredentials := true },
         st.store.map (fun a =>
           if a.filename = account.filename then
             { a with tokenData := refreshedTokenData td result now }
           else a))
      else
        ({ accountName := accountName, isHealthy := false,
           isBanned := result.isBanned.getD false,
           isExpired := result.error == some OIDCErrorType.InvalidGrantException ||
                        result.error == some OIDCErrorType.ExpiredTokenException,
           hasCredentials := true, error := result.error,
           errorMessage := result.errorMessage }, st.store)

-- ===========================================================================
-- UsageCache writers, modelled from the spec
-- ===========================================================================

/-- A fresh probe snapshot to be stored into the usage cache. -/
structure ProbeSnapshot where
  currentUsage : Option Int := none
  usageLimit : Option Int := none
  percentageUsed : Option Int := none
  daysRemaining : Option Int := none
  isBanned : Option Bool := none
  banReason : Option String := none
  suspended : Option Bool := none
deriving DecidableEq

/-- Modelled from the spec: `invalidateAccountUsage` of the repository's
`utils.ts` is not under src/; spec section 4.6 says `invalidate(name)`
marks the entry stale without deleting it. -/
def cacheInvalidate (cache : List (String × CachedUsage)) (name : String) :
    List (String × CachedUsage) :=
  cache.map (fun p => if p.1 = name then (p.1, { p.2 with stale := true }) else p)

/-- Modelled from the spec: `saveAccountUsage` of the repository's
`utils.ts` is not under src/; spec section 4.6 says `put(name, snapshot)`
overwrites the entry and clears staleness while enforcing the sticky-ban
invariant — a recorded ban is cleared only by a snapshot that explicitly
reports not suspended. -/
def cachePut (cache : List (String × CachedUsage)) (name : String) (snap : ProbeSnapshot) :
    List (String × CachedUsage) :=
  let keepBan : Bool :=
    match alistLookup cache name with
    | some old => old.isBanned == some true && !(snap.suspended == some false)
    | none => false
  alistUpsert cache name
    { currentUsage := snap.currentUsage, usageLimit := snap.usageLimit,
      percentageUsed := snap.percentageUsed, daysRemaining := snap.daysRemaining,
      stale := false,
      isBanned := if keepBan then some true else snap.isBanned,
      banReason := snap.banReason, suspended := snap.suspended }

/-- The operations that touch the usage cache. -/
inductive CacheOp where
  | invalidate (name : String)
  | put (name : String) (snap : ProbeSnapshot)
deriving DecidableEq

def applyCacheOp (cache : List (String × CachedUsage)) : CacheOp → List (String × CachedUsage)
  | CacheOp.invalidate name => cacheInvalidate cache name
  | CacheOp.put name snap => cachePut cache name snap

def applyCacheOps (cache : List (String × CachedUsage)) (ops : List CacheOp) :
    List (String × CachedUsage) :=
  ops.foldl applyCacheOp cache

/-- An operation that explicitly clears the ban of `name`: a put of a
fresh probe result that reports not suspended. -/
def clearsBan (name : String) : CacheOp → Prop
  | CacheOp.invalidate _ => False
  | CacheOp.put n snap => n = name ∧ snap.suspended = some false

-- ===========================================================================
-- Concrete states and environments used by witnesses and counterexamples
-- ===========================================================================

/-- A fully credentialed account record. -/
def wTdBob : TokenData :=
  { accountName := some "bob", refreshToken := some "rt-bob", clientId := some "cid",
    clientSecret := some "csec", accessToken := some "at-old", expiresAt := some 1000000 }

def wStBob : SwitchState := { store := [⟨"token-bob.json", wTdBob⟩] }

/-- Environment: refresh succeeds, the ban probe reports
`TEMPORARILY_SUSPENDED`. -/
def wEnvBan : SwitchEnv :=
  { now := 0, brokerOutcome := BrokerOutcome.success (some "at-new") none (some 3600),
    banOutcome := BanApiOutcome.forbidden (some "TEMPORARILY_SUSPENDED") (some "suspended"),
    freshMachineId := "mid-1", writeOk := true }

/-- Environment: refresh succeeds, the ban probe reports a healthy account. -/
def wEnvOk : SwitchEnv :=
  { now := 0, brokerOutcome := BrokerOutcome.success (some "at-new") none (some 3600),
    banOutcome := BanApiOutcome.ok (some 10) (some 500) none,
    freshMachineId := "mid-1", writeOk := true }

/-- Environment: the refresh fails with `ExpiredTokenException` (no ban
message), the probe would report healthy. -/
def wEnvExpired : SwitchEnv :=
  { now := 0,
    brokerOutcome := BrokerOutcome.httpError 400
      (BrokerBody.jsonBody { error := some OIDCErrorType.ExpiredTokenException,
                             message := some "Token expired" } "raw"),
    banOutcome := BanApiOutcome.ok none none none,
    freshMachineId := "mid-1", writeOk := true }

/-- An account whose stored token expires far in the future. -/
def wTdFar : TokenData :=
  { accountName := some "a", refreshToken := some "rt-a", clientId := some "cid",
    clientSecret := some "csec", expiresAt := some 10000000 }

def wStFar : SwitchState := { store := [⟨"token-a.json", wTdFar⟩] }

/-- An account with a refresh token but no client credentials. -/
def wTdNoCred : TokenData := { accountName := some "n", refreshToken := some "rt-n" }

def wStNoCred : SwitchState := { store := [⟨"token-n.json", wTdNoCred⟩] }

def wStEmpty : SwitchState := { store := [] }

-- ===========================================================================
-- Helper lemmas: substring machinery and sorted-list membership
-- ===========================================================================

theorem startsB_iff {n h : List Char} : startsB n h = true ↔ ∃ t, h = n ++ t := by
  induction n generalizing h with
  | nil => simp [startsB]
  | cons a as ih =>
    cases h with
    | nil => simp [startsB]
    | cons b bs =>
      simp only [startsB, Bool.and_eq_true, beq_iff_eq, List.cons_append]
      constructor
      · rintro ⟨rfl, hs⟩
        obtain ⟨t, rfl⟩ := ih.mp hs
        exact ⟨t, rfl⟩
      · rintro ⟨t, ht⟩
        injection ht with h1 h2
        subst h1
        exact ⟨rfl, ih.mpr ⟨t, h2⟩⟩

theorem subB_iff {n h : List Char} : subB n h = true ↔ ∃ p t, h = p ++ n ++ t := by
  induction h with
  | nil =>
    simp only [subB, List.isEmpty_iff]
    constructor
    · rintro rfl; exact ⟨[], [], rfl⟩
    · rintro ⟨p, t, hpt⟩
      rcases List.append_eq_nil.mp hpt.symm with ⟨h1, -⟩
      exact (List.append_eq_nil.mp h1).2
  | cons b bs ih =>
    simp only [subB, Bool.or_eq_true, startsB_iff, ih]
    constructor
    · rintro (⟨t, ht⟩ | ⟨p, t, hpt⟩)
      · exact ⟨[], t, by simpa using ht⟩
      · exact ⟨b :: p, t, by simp [hpt]⟩
    · rintro ⟨p, t, hpt⟩
      cases p with
      | nil => exact Or.inl ⟨t, by simpa using hpt⟩
      | cons x xs =>
        right
        injection hpt with h1 h2
        exact ⟨xs, t, h2⟩

theorem strIncludes_trans {s mid sub : String}
    (h1 : strIncludes s mid = true) (h2 : strIncludes mid sub = true) :
    strIncludes s sub = true := by
  unfold strIncludes at *
  rw [subB_iff] at h1 h2 ⊢
  obtain ⟨p, t, hp⟩ := h1
  obtain ⟨q, u, hq⟩ := h2
  refine ⟨p ++ q, u ++ t, ?_⟩
  rw [hp, hq]
  simp [List.append_assoc]

theorem mem_insertSorted {α : Type} {le : α → α → Bool} {x a : α} {l : List α} :
    a ∈ insertSorted le x l ↔ a = x ∨ a ∈ l := by
  induction l with
  | nil => simp [insertSorted]
  | cons y ys ih =>
    simp only [insertSorted]
    split
    · simp [List.mem_cons]
    · simp only [List.mem_cons, ih]
      tauto

theorem mem_insertionSort {α : Type} {le : α → α → Bool} {a : α} {l : List α} :
    a ∈ insertionSort le l ↔ a ∈ l := by
  induction l with
  | nil => simp [insertionSort]
  | cons y ys ih => simp [insertionSort, mem_insertSorted, ih]

/-- Every row of `loadAccounts` is built by `mkAccountInfo` from a file
of the tokens directory. -/
theorem mem_loadAccountsM {st : SwitchState} {now : Int} {a : AccountInfo}
    (h : a ∈ loadAccountsM st now) : ∃ f ∈ st.store, a = mkAccountInfo st now f := by
  unfold loadAccountsM at h
  rw [mem_insertionSort] at h
  simp only [List.mem_map, List.mem_filter] at h
  obtain ⟨f, ⟨hf, _⟩, rfl⟩ := h
  exact ⟨f, hf, rfl⟩

/-- A resolved account of the matching functions corresponds to a file
of the tokens directory with the same name and contents. -/
theorem find_resolves_store {st : SwitchState} {now : Int} {p : AccountInfo → Bool}
    {a : AccountInfo} (h : (loadAccountsM st now).find? p = some a) :
    ∃ f ∈ st.store, f.filename = a.filename ∧ f.tokenData = a.tokenData := by
  obtain ⟨f, hf, rfl⟩ := mem_loadAccountsM (List.mem_of_find?_eq_some h)
  exact ⟨f, hf, rfl, rfl⟩

-- ===========================================================================
-- C9: the pure ban classifier
-- ===========================================================================

/-- C9. `isBlockedAccessError` returns true for an `InvalidGrantException`
whose message contains the phrase `unable to refresh your session`, for
each of the listed ban-message substrings under any error code, and for
an explicit `AccessDeniedException`; and every failed `refreshOIDCToken`
outcome carries `isBanned = isBlockedAccessError` of its classification. -/
theorem isBlockedAccessError_ban_signals :
    (∀ msg : String, strIncludes msg msgUnableToRefreshSession = true →
      isBlockedAccessError (some OIDCErrorType.InvalidGrantException) (some msg) = true) ∧
    (∀ (e : Option OIDCErrorType) (msg : String),
      (strIncludes msg "Kiro access not available" = true ∨
       strIncludes msg "NewUserAccessPausedError" = true ∨
       strIncludes msg "account is blocked" = true ∨
       strIncludes msg "account is suspended" = true ∨
       strIncludes msg msgCouldntProcess = true ∨
       strIncludes msg "account issue" = true) →
      isBlockedAccessError e (some msg) = true) ∧
    (∀ msg : Option String,
      isBlockedAccessError (some OIDCErrorType.AccessDeniedException) msg = true) ∧
    (∀ (sc : Nat) (body : BrokerBody),
      (refreshOIDCToken (BrokerOutcome.httpError sc body)).isBanned =
        some (isBlockedAccessError (some (parseOIDCError sc body).1)
          (some (parseOIDCError sc body).2))) := by
  refine ⟨?_, ?_, ?_, ?_⟩
  · intro msg h
    have h2 : strIncludes msg "unable to refresh" = true :=
      strIncludes_trans h (by decide)
    simp [isBlockedAccessError, h2]
  · intro e msg h
    rcases h with h | h | h | h | h | h <;> simp [isBlockedAccessError, h]
  · intro msg
    cases msg <;> simp [isBlockedAccessError]
  · intro sc body
    rfl

/-- Witness for C9 at a concrete suspended-session message. -/
theorem isBlockedAccessError_ban_signals_witness :
    strIncludes "We are unable to refresh your session, try again" msgUnableToRefreshSession = true ∧
    isBlockedAccessError (some OIDCErrorType.InvalidGrantException)
      (some "We are unable to refresh your session, try again") = true :=
  ⟨by decide, isBlockedAccessError_ban_signals.1 "We are unable to refresh your session, try again" (by decide)⟩

-- ===========================================================================
-- Helper lemmas: `activateAndWrite`, `refreshAccountToken`, `switchToAccount`
-- ===========================================================================

theorem activateAndWrite_result (st : SwitchState) (fileName : String) (td : TokenData)
    (env : SwitchEnv) :
    (activateAndWrite st fileName td env).1 =
      if env.writeOk then { success := true }
      else { success := false, errorMessage := some "Failed to write token" } := by
  unfold activateAndWrite writeKiroToken
  by_cases hw : env.writeOk <;> simp [hw]

theorem activateAndWrite_machineIdFile (st : SwitchState) (fileName : String)
    (td : TokenData) (env : SwitchEnv) :
    ((activateAndWrite st fileName td env).2).machineIdFile =
      some (getAccountMachineId td env.freshMachineId) := by
  obtain ⟨sStore, sKiro, sMid, sStats, sCache, sCf, sB⟩ := st
  unfold activateAndWrite writeKiroToken
  cases sKiro <;> by_cases hw : env.writeOk <;> by_cases hm : truthyO td.machineId <;>
    simp [hw, hm] <;> split <;> rfl

theorem activateAndWrite_usageCache (st : SwitchState) (fileName : String)
    (td : TokenData) (env : SwitchEnv) :
    ((activateAndWrite st fileName td env).2).usageCache = st.usageCache := by
  obtain ⟨sStore, sKiro, sMid, sStats, sCache, sCf, sB⟩ := st
  unfold activateAndWrite writeKiroToken
  cases sKiro <;> by_cases hw : env.writeOk <;> by_cases hm : truthyO td.machineId <;>
    simp [hw, hm] <;> split <;> rfl

theorem activateAndWrite_kiroToken (st : SwitchState) (fileName : String)
    (td : TokenData) (env : SwitchEnv) (hw : env.writeOk = true) :
    ((activateAndWrite st fileName td env).2).kiroToken = some (materializeKiro td) := by
  obtain ⟨sStore, sKiro, sMid, sStats, sCache, sCf, sB⟩ := st
  unfold activateAndWrite writeKiroToken
  cases sKiro <;> by_cases hm : truthyO td.machineId <;>
    simp [hw, hm] <;> split <;> rfl

theorem activateAndWrite_store (st : SwitchState) (fileName : String)
    (td : TokenData) (env : SwitchEnv) :
    ((activateAndWrite st fileName td env).2).store =
      if truthyO td.machineId then st.store
      else st.store.map (fun a =>
        if a.filename = fileName then
          { a with tokenData :=
              { td with machineId := some (getAccountMachineId td env.freshMachineId) } }
        else a) := by
  obtain ⟨sStore, sKiro, sMid, sStats, sCache, sCf, sB⟩ := st
  unfold activateAndWrite writeKiroToken
  cases sKiro <;> by_cases hw : env.writeOk <;> by_cases hm : truthyO td.machineId <;>
    simp [hw, hm] <;> split <;> rfl

theorem refreshAccountToken_notFound {st : SwitchState} {name : String} {now : Int}
    {o : BrokerOutcome}
    (h : (loadAccountsM st now).find? (matchesAccount name) = none) :
    refreshAccountToken st name now o =
      ({ success := false, error := some OIDCErrorType.UnknownError,
         errorMessage := some "Account not found" }, st.store, 0) := by
  unfold refreshAccountToken
  rw [h]

theorem refreshAccountToken_missingCreds {st : SwitchState} {name : String} {now : Int}
    {o : BrokerOutcome} {account : AccountInfo}
    (h : (loadAccountsM st now).find? (matchesAccount name) = some account)
    (hc : credsB account.tokenData = false) :
    refreshAccountToken st name now o =
      ({ success := false, error := some OIDCErrorType.InvalidClientException,
         errorMessage := some "Missing credentials", isInvalidCredentials := some true },
       st.store, 0) := by
  unfold refreshAccountToken
  rw [h]
  simp [hc]

theorem refreshAccountToken_fail {st : SwitchState} {name : String} {now : Int}
    {o : BrokerOutcome} {account : AccountInfo}
    (h : (loadAccountsM st now).find? (matchesAccount name) = some account)
    (hc : credsB account.tokenData = true)
    (ho : (refreshOIDCToken o).success = false) :
    refreshAccountToken st name now o =
      ({ success := false, error := (refreshOIDCToken o).error,
         errorMessage := (refreshOIDCToken o).errorMessage,
         isBanned := (refreshOIDCToken o).isBanned,
         isInvalidCredentials := (refreshOIDCToken o).isInvalidCredentials },
       st.store, 1) := by
  unfold refreshAccountToken
  rw [h]
  simp [hc, ho]

theorem refreshAccountToken_success {st : SwitchState} {name : String} {now : Int}
    {o : BrokerOutcome} {account : AccountInfo}
    (h : (loadAccountsM st now).find? (matchesAccount name) = some account)
    (hc : credsB account.tokenData = true)
    (ho : (refreshOIDCToken o).success = true) :
    refreshAccountToken st name now o =
      ({ success := true },
       st.store.map (fun a =>
         if a.filename = account.filename then
           { a with tokenData := refreshedTokenData account.tokenData (refreshOIDCToken o) now }
         else a),
       1) := by
  unfold refreshAccountToken
  rw [h]
  simp [hc, ho]

/-- Looking up a file name in a store updated at that file name returns
the updated record, provided a file of that name exists. -/
theorem find_map_update {l : List AccountFile} {fn : String} {upd : TokenData}
    (hex : ∃ f ∈ l, f.filename = fn) :
    ((l.map (fun a =>
        if a.filename = fn then { a with tokenData := upd } else a)).find?
      (fun a => a.filename == fn)).map AccountFile.tokenData = some upd := by
  induction l with
  | nil => obtain ⟨f, hf, -⟩ := hex; exact absurd hf (List.not_mem_nil f)
  | cons a t ih =>
    by_cases ha : a.filename = fn
    · simp [ha, List.find?_cons]
    · have hb : (a.filename == fn) = false := by simp [ha]
      simp only [List.map_cons, if_neg ha, List.find?_cons, hb]
      apply ih
      obtain ⟨f, hf, hfn⟩ := hex
      rcases List.mem_cons.mp hf with rfl | hft
      · exact absurd hfn ha
      · exact ⟨f, hft, hfn⟩

theorem switchToAccount_notFound {st : SwitchState} {name : String} {env : SwitchEnv}
    (h : (loadAccountsM st env.now).find? (matchesAccount name) = none) :
    switchToAccount st name env =
      ⟨{ success := false, errorMessage := some "Account not found" }, st, 0⟩ := by
  unfold switchToAccount
  rw [h]

theorem switchToAccount_noCreds {st : SwitchState} {name : String} {env : SwitchEnv}
    {account : AccountInfo}
    (h : (loadAccountsM st env.now).find? (matchesAccount name) = some account)
    (hc : credsB account.tokenData = false) :
    switchToAccount st name env =
      ⟨(activateAndWrite st account.filename account.tokenData env).1,
       (activateAndWrite st account.filename account.tokenData env).2, 0⟩ := by
  unfold switchToAccount
  rw [h]
  simp [hc]

theorem switchToAccount_refreshSuccess_banned {st : SwitchState} {name : String}
    {env : SwitchEnv} {account : AccountInfo}
    (h : (loadAccountsM st env.now).find? (matchesAccount name) = some account)
    (hc : credsB account.tokenData = true)
    (ho : (refreshOIDCToken env.brokerOutcome).success = true)
    (hb : (checkAccountBanViaAPI env.banOutcome).isBanned = true) :
    switchToAccount st name env =
      ⟨{ success := false, error := some OIDCErrorType.AccessDeniedException,
         errorMessage := some (jsOr (checkAccountBanViaAPI env.banOutcome).message
           "Account is banned (TEMPORARILY_SUSPENDED)"),
         isBanned := some true },
       { st with store := (refreshAccountToken st name env.now env.brokerOutcome).2.1 }, 1⟩ := by
  unfold switchToAccount
  rw [h]
  have hr := refreshAccountToken_success h hc ho
  simp [hc, hr, hb]

theorem switchToAccount_refreshSuccess_notBanned {st : SwitchState} {name : String}
    {env : SwitchEnv} {account : AccountInfo}
    (h : (loadAccountsM st env.now).find? (matchesAccount name) = some account)
    (hc : credsB account.tokenData = true)
    (ho : (refreshOIDCToken env.brokerOutcome).success = true)
    (hb : (checkAccountBanViaAPI env.banOutcome).isBanned = false) :
    switchToAccount st name env =
      ⟨(activateAndWrite
          { st with store := (refreshAccountToken st name env.now env.brokerOutcome).2.1 }
          account.filename
          (refreshedTokenData account.tokenData (refreshOIDCToken env.brokerOutcome) env.now)
          env).1,
       (activateAndWrite
          { st with store := (refreshAccountToken st name env.now env.brokerOutcome).2.1 }
          account.filename
          (refreshedTokenData account.tokenData (refreshOIDCToken env.brokerOutcome) env.now)
          env).2, 1⟩ := by
  unfold switchToAccount
  rw [h]
  have hr := refreshAccountToken_success h hc ho
  have hex : ∃ f ∈ st.store, f.filename = account.filename := by
    obtain ⟨f, hf, hfn, -⟩ := find_resolves_store h
    exact ⟨f, hf, hfn⟩
  have htd := @find_map_update st.store account.filename
    (refreshedTokenData account.tokenData (refreshOIDCToken env.brokerOutcome) env.now) hex
  rw [hr]
  simp only [hc, hb]
  rw [htd]
  simp

theorem switchToAccount_refreshFail_banned {st : SwitchState} {name : String}
    {env : SwitchEnv} {account : AccountInfo}
    (h : (loadAccountsM st env.now).find? (matchesAccount name) = some account)
    (hc : credsB account.tokenData = true)
    (ho : (refreshOIDCToken env.brokerOutcome).success = false)
    (hbn : (refreshOIDCToken env.brokerOutcome).isBanned = some true) :
    switchToAccount st name env =
      ⟨{ success := false, error := (refreshOIDCToken env.brokerOutcome).error,
         errorMessage := some "Account is banned", isBanned := some true },
       st, 0⟩ := by
  unfold switchToAccount
  rw [h]
  have hr := refreshAccountToken_fail h hc ho
  simp [hc, hr, hbn]

theorem switchToAccount_refreshFail_invalidGrant {st : SwitchState} {name : String}
    {env : SwitchEnv} {account : AccountInfo}
    (h : (loadAccountsM st env.now).find? (matchesAccount name) = some account)
    (hc : credsB account.tokenData = true)
    (ho : (refreshOIDCToken env.brokerOutcome).success = false)
    (hbn : (refreshOIDCToken env.brokerOutcome).isBanned ≠ some true)
    (hig : (refreshOIDCToken env.brokerOutcome).error = some OIDCErrorType.InvalidGrantException) :
    switchToAccount st name env =
      ⟨{ success := false, error := (refreshOIDCToken env.brokerOutcome).error,
         errorMessage := (refreshOIDCToken env.brokerOutcome).errorMessage,
         isBanned := some false },
       st, 0⟩ := by
  unfold switchToAccount
  rw [h]
  have hr := refreshAccountToken_fail h hc ho
  simp [hc, hr, hbn, hig]

theorem switchToAccount_refreshFail_trulyInvalid {st : SwitchState} {name : String}
    {env : SwitchEnv} {account : AccountInfo}
    (h : (loadAccountsM st env.now).find? (matchesAccount name) = some account)
    (hc : credsB account.tokenData = true)
    (ho : (refreshOIDCToken env.brokerOutcome).success = false)
    (hbn : (refreshOIDCToken env.brokerOutcome).isBanned ≠ some true)
    (hig : (refreshOIDCToken env.brokerOutcome).error ≠ some OIDCErrorType.InvalidGrantException)
    (hti : isTokenTrulyInvalid account.tokenData env.now = true) :
    switchToAccount st name env =
      ⟨{ success := false, error := (refreshOIDCToken env.brokerOutcome).error,
         errorMessage := (refreshOIDCToken env.brokerOutcome).errorMessage,
         isBanned := (refreshOIDCToken env.brokerOutcome).isBanned },
       st, 0⟩ := by
  unfold switchToAccount
  rw [h]
  have hr := refreshAccountToken_fail h hc ho
  simp [hc, hr, hbn, hig, hti]

theorem switchToAccount_refreshFail_fallback {st : SwitchState} {name : String}
    {env : SwitchEnv} {account : AccountInfo}
    (h : (loadAccountsM st env.now).find? (matchesAccount name) = some account)
    (hc : credsB account.tokenData = true)
    (ho : (refreshOIDCToken env.brokerOutcome).success = false)
    (hbn : (refreshOIDCToken env.brokerOutcome).isBanned ≠ some true)
    (hig : (refreshOIDCToken env.brokerOutcome).error ≠ some OIDCErrorType.InvalidGrantException)
    (hti : isTokenTrulyInvalid account.tokenData env.now = false) :
    switchToAccount st name env =
      ⟨(activateAndWrite st account.filename account.tokenData env).1,
       (activateAndWrite st account.filename account.tokenData env).2, 0⟩ := by
  unfold switchToAccount
  rw [h]
  have hr := refreshAccountToken_fail h hc ho
  simp [hc, hr, hbn, hig, hti]

theorem activateAndWrite_abort_cases {S : SwitchState} {f : String} {td : TokenData}
    {env : SwitchEnv} (hfail : (activateAndWrite S f td env).1.success = false) :
    (activateAndWrite S f td env).1.errorMessage = some "Failed to write token" ∧
    (activateAndWrite S f td env).1.error = none := by
  rw [activateAndWrite_result] at hfail ⊢
  by_cases hw : env.writeOk <;> simp [hw] at hfail ⊢

/-- An activation-phase result never looks like a pre-activation abort:
its only failure is the token-write failure, which carries no error
classification. -/
theorem activation_abort_impossible {S : SwitchState} {f : String} {td : TokenData}
    {env : SwitchEnv} (hfail : (activateAndWrite S f td env).1.success = false)
    (habort : (activateAndWrite S f td env).1.errorMessage = some "Account not found" ∨
              (activateAndWrite S f td env).1.error ≠ none) : False := by
  obtain ⟨he, hn⟩ := activateAndWrite_abort_cases hfail
  rcases habort with ha | ha
  · rw [he] at ha
    exact absurd ha (by decide)
  · exact ha hn

-- ===========================================================================
-- C1: pre-activation aborts are all-or-nothing
-- ===========================================================================

/-- C1. Every `switchToAccount` outcome that aborts before activation —
account not found, a ban detected via the refresh classification or via
the ban probe, a fatal refresh error, or a transient refresh error with
the stored token past the grace window (exactly the failures that carry
an error classification or the not-found message; the only
post-activation failure, the token-write failure, carries neither) —
leaves the Kiro auth token file and the machine-id file exactly as they
were before the call. -/
theorem switchToAccount_preActivation_abort_preserves_state
    (st : SwitchState) (name : String) (env : SwitchEnv)
    (hfail : (switchToAccount st name env).result.success = false)
    (habort : (switchToAccount st name env).result.errorMessage = some "Account not found" ∨
              (switchToAccount st name env).result.error ≠ none) :
    (switchToAccount st name env).state.kiroToken = st.kiroToken ∧
    (switchToAccount st name env).state.machineIdFile = st.machineIdFile := by
  cases hf : (loadAccountsM st env.now).find? (matchesAccount name) with
  | none =>
    rw [switchToAccount_notFound hf]
    exact ⟨rfl, rfl⟩
  | some account =>
    by_cases hc : credsB account.tokenData = true
    · by_cases hs : (refreshOIDCToken env.brokerOutcome).success = true
      · by_cases hb : (checkAccountBanViaAPI env.banOutcome).isBanned = true
        · rw [switchToAccount_refreshSuccess_banned hf hc hs hb]
          exact ⟨rfl, rfl⟩
        · have hb' : (checkAccountBanViaAPI env.banOutcome).isBanned = false := by
            simpa using hb
          rw [switchToAccount_refreshSuccess_notBanned hf hc hs hb'] at hfail habort
          exact (activation_abort_impossible hfail habort).elim
      · have hs' : (refreshOIDCToken env.brokerOutcome).success = false := by simpa using hs
        by_cases hbn : (refreshOIDCToken env.brokerOutcome).isBanned = some true
        · rw [switchToAccount_refreshFail_banned hf hc hs' hbn]
          exact ⟨rfl, rfl⟩
        · by_cases hig : (refreshOIDCToken env.brokerOutcome).error =
              some OIDCErrorType.InvalidGrantException
          · rw [switchToAccount_refreshFail_invalidGrant hf hc hs' hbn hig]
            exact ⟨rfl, rfl⟩
          · by_cases hti : isTokenTrulyInvalid account.tokenData env.now = true
            · rw [switchToAccount_refreshFail_trulyInvalid hf hc hs' hbn hig hti]
              exact ⟨rfl, rfl⟩
            · have hti' : isTokenTrulyInvalid account.tokenData env.now = false := by
                simpa using hti
              rw [switchToAccount_refreshFail_fallback hf hc hs' hbn hig hti'] at hfail habort
              exact (activation_abort_impossible hfail habort).elim
    · have hc' : credsB account.tokenData = false := by simpa using hc
      rw [switchToAccount_noCreds hf hc'] at hfail habort
      exact (activation_abort_impossible hfail habort).elim

/-- Witness for C1 at a concrete not-found abort. -/
theorem switchToAccount_preActivation_abort_preserves_state_witness :
    ((switchToAccount wStEmpty "x" wEnvOk).result.success = false ∧
     (switchToAccount wStEmpty "x" wEnvOk).result.errorMessage = some "Account not found") ∧
    ((switchToAccount wStEmpty "x" wEnvOk).state.kiroToken = wStEmpty.kiroToken ∧
     (switchToAccount wStEmpty "x" wEnvOk).state.machineIdFile = wStEmpty.machineIdFile) :=
  ⟨⟨by decide, by decide⟩,
   switchToAccount_preActivation_abort_preserves_state wStEmpty "x" wEnvOk
     (by decide) (Or.inl (by decide))⟩

-- ===========================================================================
-- C2: ban probe after successful refresh
-- ===========================================================================

/-- C2 counterexample. At a concrete account whose refresh succeeds and
whose ban probe reports `TEMPORARILY_SUSPENDED`, the switch returns
`success = false, isBanned = true` — but no ban is recorded into the
per-account usage snapshot: the usage cache is left exactly as it was
(empty), refuting the recording clause of the claim. -/
theorem switchToAccount_ban_not_recorded_counterexample :
    (switchToAccount wStBob "bob" wEnvBan).result.success = false ∧
    (switchToAccount wStBob "bob" wEnvBan).result.isBanned = some true ∧
    (switchToAccount wStBob "bob" wEnvBan).probeCalls = 1 ∧
    alistLookup (switchToAccount wStBob "bob" wEnvBan).state.usageCache "bob" = none ∧
    (switchToAccount wStBob "bob" wEnvBan).state.usageCache = wStBob.usageCache :=
  ⟨by decide, by decide, by decide, by decide, by decide⟩

/-- C2 (amended). For every account resolved by the switch whose refresh
succeeds, the ban probe is invoked exactly once before any activation;
if it reports suspended, the switch returns
`success = false, isBanned = true` with the `AccessDeniedException`
classification, does not activate (the Kiro auth token and the
machine-id file are unchanged) — and the per-account usage snapshot
store is also unchanged, i.e. `switchToAccount` itself does not record
the ban there. -/
theorem switchToAccount_banProbe_behavior_amended
    (st : SwitchState) (name : String) (env : SwitchEnv) (account : AccountInfo)
    (hf : (loadAccountsM st env.now).find? (matchesAccount name) = some account)
    (hc : credsB account.tokenData = true)
    (ho : (refreshOIDCToken env.brokerOutcome).success = true) :
    (switchToAccount st name env).probeCalls = 1 ∧
    ((checkAccountBanViaAPI env.banOutcome).isBanned = true →
      (switchToAccount st name env).result =
        { success := false, error := some OIDCErrorType.AccessDeniedException,
          errorMessage := some (jsOr (checkAccountBanViaAPI env.banOutcome).message
            "Account is banned (TEMPORARILY_SUSPENDED)"),
          isBanned := some true } ∧
      (switchToAccount st name env).state.kiroToken = st.kiroToken ∧
      (switchToAccount st name env).state.machineIdFile = st.machineIdFile ∧
      (switchToAccount st name env).state.usageCache = st.usageCache) := by
  by_cases hb : (checkAccountBanViaAPI env.banOutcome).isBanned = true
  · rw [switchToAccount_refreshSuccess_banned hf hc ho hb]
    exact ⟨rfl, fun _ => ⟨rfl, rfl, rfl, rfl⟩⟩
  · have hb' : (checkAccountBanViaAPI env.banOutcome).isBanned = false := by simpa using hb
    rw [switchToAccount_refreshSuccess_notBanned hf hc ho hb']
    exact ⟨rfl, fun hbt => absurd hbt hb⟩

/-- Witness for the amended C2 at the concrete suspended scenario. -/
theorem switchToAccount_banProbe_behavior_amended_witness :
    ((loadAccountsM wStBob wEnvBan.now).find? (matchesAccount "bob") =
       some (mkAccountInfo wStBob wEnvBan.now ⟨"token-bob.json", wTdBob⟩) ∧
     credsB (mkAccountInfo wStBob wEnvBan.now ⟨"token-bob.json", wTdBob⟩).tokenData = true ∧
     (refreshOIDCToken wEnvBan.brokerOutcome).success = true) ∧
    ((switchToAccount wStBob "bob" wEnvBan).probeCalls = 1 ∧
     ((checkAccountBanViaAPI wEnvBan.banOutcome).isBanned = true →
       (switchToAccount wStBob "bob" wEnvBan).result =
         { success := false, error := some OIDCErrorType.AccessDeniedException,
           errorMessage := some (jsOr (checkAccountBanViaAPI wEnvBan.banOutcome).message
             "Account is banned (TEMPORARILY_SUSPENDED)"),
           isBanned := some true } ∧
       (switchToAccount wStBob "bob" wEnvBan).state.kiroToken = wStBob.kiroToken ∧
       (switchToAccount wStBob "bob" wEnvBan).state.machineIdFile = wStBob.machineIdFile ∧
       (switchToAccount wStBob "bob" wEnvBan).state.usageCache = wStBob.usageCache)) :=
  ⟨⟨by decide, by decide, by decide⟩,
   switchToAccount_banProbe_behavior_amended wStBob "bob" wEnvBan
     (mkAccountInfo wStBob wEnvBan.now ⟨"token-bob.json", wTdBob⟩)
     (by decide) (by decide) (by decide)⟩

-- ===========================================================================
-- C3: the sticky ban flag
-- ===========================================================================

theorem loadSingle_preserves_ban {c : CachedUsage} (h : c.isBanned = some true) :
    (loadSingleAccountUsage (some c)).isBanned = some true := by
  simp [loadSingleAccountUsage, h]

theorem usageFromCache_preserves_ban {c : CachedUsage} (h : c.isBanned = some true) :
    (accountUsageFromCache (some c)).isBanned = some true := by
  by_cases hs : c.stale <;> simp [accountUsageFromCache, hs, h]

theorem alistLookup_map {α : Type} (F : String → α → α) (l : List (String × α))
    (name : String) :
    alistLookup (l.map (fun p => (p.1, F p.1 p.2))) name =
      (alistLookup l name).map (F name) := by
  induction l with
  | nil => rfl
  | cons p t ih =>
    by_cases hm : p.1 = name
    · subst hm
      simp [alistLookup, List.find?_cons]
    · have hb : (p.1 == name) = false := by simp [hm]
      simp only [List.map_cons, alistLookup, List.find?_cons, hb] at ih ⊢
      exact ih

theorem cacheInvalidate_eq (cache : List (String × CachedUsage)) (n : String) :
    cacheInvalidate cache n =
      cache.map (fun p => (p.1, if p.1 = n then { p.2 with stale := true } else p.2)) := by
  unfold cacheInvalidate
  apply List.map_congr_left
  intro p _
  by_cases h : p.1 = n <;> simp [h]

theorem cacheInvalidate_lookup (cache : List (String × CachedUsage)) (n name : String) :
    alistLookup (cacheInvalidate cache n) name =
      (alistLookup cache name).map
        (fun e => if name = n then { e with stale := true } else e) := by
  rw [cacheInvalidate_eq]
  exact alistLookup_map (fun k v => if k = n then { v with stale := true } else v) cache name

theorem alistLookup_upsert_self {α : Type} (l : List (String × α)) (k : String) (v : α) :
    alistLookup (alistUpsert l k v) k = some v := by
  induction l with
  | nil => simp [alistUpsert, alistLookup]
  | cons p t ih =>
    unfold alistUpsert at ih ⊢
    by_cases hm : p.1 = k
    · have hb : (p.1 == k) = true := by simp [hm]
      simp [alistLookup, List.find?_cons, hb, hm]
    · have hb : (p.1 == k) = false := by simp [hm]
      simp only [List.find?_cons, hb] at ih ⊢
      by_cases hf : (t.find? (fun p => p.1 == k)).isSome = true
      · simp only [hf, if_true] at ih ⊢
        simp only [List.map_cons, if_neg hm, alistLookup, List.find?_cons, hb] at ih ⊢
        exact ih
      · have hf' : (t.find? (fun p => p.1 == k)).isSome = false := by
          simp only [Bool.not_eq_true] at hf
          exact hf
        simp only [hf', Bool.false_eq_true, if_false] at ih ⊢
        simp only [List.cons_append, alistLookup, List.find?_cons, hb] at ih ⊢
        exact ih

theorem alistLookup_upsert_other {α : Type} (l : List (String × α)) (k : String) (v : α)
    (name : String) (hne : k ≠ name) :
    alistLookup (alistUpsert l k v) name = alistLookup l name := by
  induction l with
  | nil =>
    have hb : (k == name) = false := by simp [hne]
    simp [alistUpsert, alistLookup, hb]
  | cons p t ih =>
    unfold alistUpsert at ih ⊢
    by_cases hm : p.1 = k
    · have hb : (p.1 == k) = true := by simp [hm]
      have hbn : (p.1 == name) = false := by simp [hm, hne]
      have hkn : (k == name) = false := by simp [hne]
      simp only [List.find?_cons, hb, Option.isSome_some, if_true, List.map_cons, if_pos hm]
      simp only [alistLookup, List.find?_cons, hbn, hkn]
      -- the tail map keeps keys, so lookups of `name` agree
      clear ih
      induction t with
      | nil => rfl
      | cons q u ihq =>
        by_cases hq : q.1 = k
        · have hqn : (q.1 == name) = false := by simp [hq, hne]
          have hkn2 : (k == name) = false := by simp [hne]
          simp only [List.map_cons, if_pos hq, List.find?_cons, hqn, hkn2]
          exact ihq
        · simp only [List.map_cons, if_neg hq, List.find?_cons]
          by_cases hqn : q.1 = name
          · have : (q.1 == name) = true := by simp [hqn]
            simp [this]
          · have : (q.1 == name) = false := by simp [hqn]
            simp only [this]
            exact ihq
    · have hb : (p.1 == k) = false := by simp [hm]
      simp only [List.find?_cons, hb] at ih ⊢
      by_cases hf : (t.find? (fun p => p.1 == k)).isSome = true
      · simp only [hf, if_true] at ih ⊢
        simp only [List.map_cons, if_neg hm, alistLookup, List.find?_cons] at ih ⊢
        by_cases hpn : p.1 = name
        · have : (p.1 == name) = true := by simp [hpn]
          simp [this]
        · have : (p.1 == name) = false := by simp [hpn]
          simp only [this]
          exact ih
      · have hf' : (t.find? (fun p => p.1 == k)).isSome = false := by
          simp only [Bool.not_eq_true] at hf
          exact hf
        simp only [hf', Bool.false_eq_true, if_false] at ih ⊢
        simp only [List.cons_append, alistLookup, List.find?_cons] at ih ⊢
        by_cases hpn : p.1 = name
        · have : (p.1 == name) = true := by simp [hpn]
          simp [this]
        · have : (p.1 == name) = false := by simp [hpn]
          simp only [this]
          exact ih

theorem cachePut_lookup_self (cache : List (String × CachedUsage)) (name : String)
    (snap : ProbeSnapshot) :
    alistLookup (cachePut cache name snap) name =
      some { currentUsage := snap.currentUsage, usageLimit := snap.usageLimit,
             percentageUsed := snap.percentageUsed, daysRemaining := snap.daysRemaining,
             stale := false,
             isBanned :=
               if (match alistLookup cache name with
                   | some old => old.isBanned == some true && !(snap.suspended == some false)
                   | none => false) then some true else snap.isBanned,
             banReason := snap.banReason, suspended := snap.suspended } := by
  unfold cachePut
  exact alistLookup_upsert_self _ _ _

theorem cachePut_lookup_other (cache : List (String × CachedUsage)) (n : String)
    (snap : ProbeSnapshot) (name : String) (hne : n ≠ name) :
    alistLookup (cachePut cache n snap) name = alistLookup cache name := by
  unfold cachePut
  exact alistLookup_upsert_other _ _ _ _ hne

theorem applyCacheOp_preserves_ban {cache : List (String × CachedUsage)} {name : String}
    {c : CachedUsage} (hl : alistLookup cache name = some c) (hban : c.isBanned = some true)
    {op : CacheOp} (hop : ¬ clearsBan name op) :
    ∃ c', alistLookup (applyCacheOp cache op) name = some c' ∧ c'.isBanned = some true := by
  cases op with
  | invalidate n =>
    refine ⟨if name = n then { c with stale := true } else c, ?_, ?_⟩
    · show alistLookup (cacheInvalidate cache n) name = _
      rw [cacheInvalidate_lookup, hl]
      rfl
    · by_cases h : name = n <;> simp [h, hban]
  | put n snap =>
    by_cases hn : n = name
    · subst hn
      have hsus : ¬ snap.suspended = some false := fun hs => hop ⟨rfl, hs⟩
      refine ⟨_, cachePut_lookup_self cache n snap, ?_⟩
      simp [hl, hban, hsus]
    · refine ⟨c, ?_, hban⟩
      show alistLookup (cachePut cache n snap) name = some c
      rw [cachePut_lookup_other cache n snap name hn]
      exact hl

theorem applyCacheOps_preserves_ban :
    ∀ (ops : List CacheOp) (cache : List (String × CachedUsage)) (name : String)
      (c : CachedUsage), alistLookup cache name = some c → c.isBanned = some true →
      (∀ op ∈ ops, ¬ clearsBan name op) →
      ∃ c', alistLookup (applyCacheOps cache ops) name = some c' ∧ c'.isBanned = some true := by
  intro ops
  induction ops with
  | nil => exact fun cache name c hl hban _ => ⟨c, hl, hban⟩
  | cons op rest ih =>
    intro cache name c hl hban hnone
    obtain ⟨c1, hl1, hban1⟩ :=
      applyCacheOp_preserves_ban hl hban (hnone op (List.mem_cons_self op rest))
    exact ih (applyCacheOp cache op) name c1 hl1 hban1
      (fun o ho => hnone o (List.mem_cons_of_mem _ ho))

/-- C3. A cached ban is sticky: `loadSingleAccountUsage` and the usage
derivation of `loadAccounts` still report `isBanned = true` from a cache
entry carrying the flag even when the entry is stale; every row of
`loadAccounts` whose account has a ban-flagged cache entry reports the
ban; and across any sequence of cache operations (invalidate marks
stale, put overwrites — the writers modelled from the spec), the flag
survives unless a put carries a fresh probe result that explicitly
reports not suspended. -/
theorem stickyBan_cache_semantics :
    (∀ c : CachedUsage, c.isBanned = some true →
      (loadSingleAccountUsage (some c)).isBanned = some true) ∧
    (∀ c : CachedUsage, c.isBanned = some true →
      (accountUsageFromCache (some c)).isBanned = some true) ∧
    (∀ (st : SwitchState) (now : Int) (a : AccountInfo), a ∈ loadAccountsM st now →
      ∀ c : CachedUsage,
        alistLookup st.usageCache (jsOr a.tokenData.accountName a.filename) = some c →
        c.isBanned = some true → a.usage.isBanned = some true) ∧
    (∀ (ops : List CacheOp) (cache : List (String × CachedUsage)) (name : String)
       (c : CachedUsage), alistLookup cache name = some c → c.isBanned = some true →
       (∀ op ∈ ops, ¬ clearsBan name op) →
       ∃ c', alistLookup (applyCacheOps cache ops) name = some c' ∧
         c'.isBanned = some true) := by
  refine ⟨fun c h => loadSingle_preserves_ban h,
          fun c h => usageFromCache_preserves_ban h, ?_, applyCacheOps_preserves_ban⟩
  intro st now a ha c hc hban
  obtain ⟨f, hf, rfl⟩ := mem_loadAccountsM ha
  have husage : (mkAccountInfo st now f).usage =
      accountUsageFromCache
        (alistLookup st.usageCache (jsOr f.tokenData.accountName f.filename)) := rfl
  rw [husage]
  have hc' : alistLookup st.usageCache (jsOr f.tokenData.accountName f.filename) = some c := hc
  rw [hc']
  exact usageFromCache_preserves_ban hban

/-- Witness for C3 at a concrete stale banned cache entry. -/
theorem stickyBan_cache_semantics_witness :
    (({ isBanned := some true, stale := true } : CachedUsage).isBanned = some true) ∧
    (loadSingleAccountUsage (some { isBanned := some true, stale := true })).isBanned =
      some true :=
  ⟨by decide,
   stickyBan_cache_semantics.1 { isBanned := some true, stale := true } (by decide)⟩

-- ===========================================================================
-- C7: missing credentials fail with zero network calls
-- ===========================================================================

/-- C7. If any of the three refresh credentials is missing (JS-falsy) on
the resolved account, `refreshAccountToken` fails immediately with the
missing-credentials classification (`InvalidClientException`,
`isInvalidCredentials`, message `Missing credentials`), leaves the
tokens directory unchanged, and makes zero network calls. -/
theorem refresh_missing_credentials_no_network
    (st : SwitchState) (name : String) (now : Int) (outcome : BrokerOutcome)
    (account : AccountInfo)
    (hf : (loadAccountsM st now).find? (matchesAccount name) = some account)
    (hmiss : truthyO account.tokenData.refreshToken = false ∨
             truthyO account.tokenData.clientId = false ∨
             truthyO account.tokenData.clientSecret = false) :
    refreshAccountToken st name now outcome =
      ({ success := false, error := some OIDCErrorType.InvalidClientException,
         errorMessage := some "Missing credentials", isInvalidCredentials := some true },
       st.store, 0) := by
  have hc : credsB account.tokenData = false := by
    unfold credsB
    rcases hmiss with h | h | h <;> simp [h]
  exact refreshAccountToken_missingCreds hf hc

/-- Witness for C7 at a concrete account without client credentials. -/
theorem refresh_missing_credentials_no_network_witness :
    ((loadAccountsM wStNoCred 0).find? (matchesAccount "n") =
       some (mkAccountInfo wStNoCred 0 ⟨"token-n.json", wTdNoCred⟩) ∧
     truthyO (mkAccountInfo wStNoCred 0 ⟨"token-n.json", wTdNoCred⟩).tokenData.clientId = false) ∧
    refreshAccountToken wStNoCred "n" 0 BrokerOutcome.parseFail =
      ({ success := false, error := some OIDCErrorType.InvalidClientException,
         errorMessage := some "Missing credentials", isInvalidCredentials := some true },
       wStNoCred.store, 0) :=
  ⟨⟨by decide, by decide⟩,
   refresh_missing_credentials_no_network wStNoCred "n" 0 BrokerOutcome.parseFail
     (mkAccountInfo wStNoCred 0 ⟨"token-n.json", wTdNoCred⟩)
     (by decide) (Or.inr (Or.inl (by decide)))⟩

-- ===========================================================================
-- C10: the successful-refresh update is a frame
-- ===========================================================================

/-- C10. On a successful refresh, the resolved account's record is
rewritten to `refreshedTokenData`, which updates only `accessToken`,
`refreshToken`, `expiresAt` and `expiresIn`; every other field
(account name, e-mail, client id/secret and their expiry, client-id
hash, auth method, provider, region, device identifier) is preserved,
the `refreshToken` falls back to the stored one when the broker omits
one, other files are untouched, and `checkAccountHealth` persists the
identical update. -/
theorem refresh_frame_preserves_other_fields
    (st : SwitchState) (name : String) (now : Int) (outcome : BrokerOutcome)
    (account : AccountInfo)
    (hf : (loadAccountsM st now).find? (matchesAccount name) = some account)
    (hc : credsB account.tokenData = true)
    (ho : (refreshOIDCToken outcome).success = true) :
    (∀ b ∈ (refreshAccountToken st name now outcome).2.1,
       b.filename = account.filename →
       b.tokenData = refreshedTokenData account.tokenData (refreshOIDCToken outcome) now) ∧
    (∀ b ∈ (refreshAccountToken st name now outcome).2.1,
       b.filename ≠ account.filename → b ∈ st.store) ∧
    ((refreshedTokenData account.tokenData (refreshOIDCToken outcome) now).accountName =
       account.tokenData.accountName ∧
     (refreshedTokenData account.tokenData (refreshOIDCToken outcome) now).email =
       account.tokenData.email ∧
     (refreshedTokenData account.tokenData (refreshOIDCToken outcome) now).clientId =
       account.tokenData.clientId ∧
     (refreshedTokenData account.tokenData (refreshOIDCToken outcome) now).clientSecret =
       account.tokenData.clientSecret ∧
     (refreshedTokenData account.tokenData (refreshOIDCToken outcome) now).clientSecretExpiresAt =
       account.tokenData.clientSecretExpiresAt ∧
     (refreshedTokenData account.tokenData (refreshOIDCToken outcome) now).clientIdHash =
       account.tokenData.clientIdHash ∧
     (refreshedTokenData account.tokenData (refreshOIDCToken outcome) now).authMethod =
       account.tokenData.authMethod ∧
     (refreshedTokenData account.tokenData (refreshOIDCToken outcome) now).provider =
       account.tokenData.provider ∧
     (refreshedTokenData account.tokenData (refreshOIDCToken outcome) now).region =
       account.tokenData.region ∧
     (refreshedTokenData account.tokenData (refreshOIDCToken outcome) now).machineId =
       account.tokenData.machineId) ∧
    ((refreshedTokenData account.tokenData (refreshOIDCToken outcome) now).accessToken =
       (refreshOIDCToken outcome).accessToken ∧
     (refreshedTokenData account.tokenData (refreshOIDCToken outcome) now).expiresIn =
       (refreshOIDCToken outcome).expiresIn ∧
     (refreshedTokenData account.tokenData (refreshOIDCToken outcome) now).expiresAt =
       some (now + (jsOrNat (refreshOIDCToken outcome).expiresIn 3600 : Int) * 1000)) ∧
    ((truthyO (refreshOIDCToken outcome).refreshToken = false →
       (refreshedTokenData account.tokenData (refreshOIDCToken outcome) now).refreshToken =
         account.tokenData.refreshToken) ∧
     (truthyO (refreshOIDCToken outcome).refreshToken = true →
       (refreshedTokenData account.tokenData (refreshOIDCToken outcome) now).refreshToken =
         (refreshOIDCToken outcome).refreshToken)) ∧
    (checkAccountHealth st name now outcome).2 =
      (refreshAccountToken st name now outcome).2.1 := by
  rw [refreshAccountToken_success hf hc ho]
  refine ⟨?_, ?_, ⟨rfl, rfl, rfl, rfl, rfl, rfl, rfl, rfl, rfl, rfl⟩, ⟨rfl, rfl, rfl⟩, ?_, ?_⟩
  · intro b hb hfn
    obtain ⟨orig, ho2, rfl⟩ := List.mem_map.mp hb
    by_cases hof : orig.filename = account.filename
    · simp [hof]
    · rw [if_neg hof] at hfn ⊢
      exact absurd hfn hof
  · intro b hb hfn
    obtain ⟨orig, ho2, rfl⟩ := List.mem_map.mp hb
    by_cases hof : orig.filename = account.filename
    · rw [if_pos hof] at hfn
      exact absurd hof hfn
    · rw [if_neg hof]
      exact ho2
  · constructor
    · intro h
      simp [refreshedTokenData, h]
    · intro h
      simp [refreshedTokenData, h]
  · have hc3 : (truthyO account.tokenData.clientId && truthyO account.tokenData.clientSecret &&
        truthyO account.tokenData.refreshToken) = true := by
      unfold credsB at hc
      simp only [Bool.and_eq_true] at hc ⊢
      exact ⟨⟨hc.1.2, hc.2⟩, hc.1.1⟩
    unfold checkAccountHealth
    rw [hf]
    simp [hc3, ho]

/-- Witness for C10 at a concrete successful refresh that omits the new
refresh token. -/
theorem refresh_frame_preserves_other_fields_witness :
    ((loadAccountsM wStBob 0).find? (matchesAccount "bob") =
       some (mkAccountInfo wStBob 0 ⟨"token-bob.json", wTdBob⟩) ∧
     credsB (mkAccountInfo wStBob 0 ⟨"token-bob.json", wTdBob⟩).tokenData = true ∧
     (refreshOIDCToken (BrokerOutcome.success (some "at-new") none (some 3600))).success = true) ∧
    (truthyO (refreshOIDCToken
        (BrokerOutcome.success (some "at-new") none (some 3600))).refreshToken = false →
      (refreshedTokenData
          (mkAccountInfo wStBob 0 ⟨"token-bob.json", wTdBob⟩).tokenData
          (refreshOIDCToken (BrokerOutcome.success (some "at-new") none (some 3600)))
          0).refreshToken =
        (mkAccountInfo wStBob 0 ⟨"token-bob.json", wTdBob⟩).tokenData.refreshToken) :=
  ⟨⟨by decide, by decide, by decide⟩,
   (refresh_frame_preserves_other_fields wStBob "bob" 0
      (BrokerOutcome.success (some "at-new") none (some 3600))
      (mkAccountInfo wStBob 0 ⟨"token-bob.json", wTdBob⟩)
      (by decide) (by decide) (by decide)).2.2.2.2.1.1⟩

-- ===========================================================================
-- C6: expiresAt under refresh
-- ===========================================================================

theorem jsOrNat_pos (o : Option Nat) : 0 < jsOrNat o 3600 := by
  cases o with
  | none => decide
  | some n =>
    by_cases h : n = 0 <;> simp [jsOrNat, h]
    exact Nat.pos_of_ne_zero h

/-- C6 counterexample. A concrete successful refresh at `now = 0` of an
account whose stored `expiresAt` is 10000000 ms rewrites `expiresAt` to
3600000 ms — a successful refresh that strictly DECREASES `expiresAt`,
refuting the claimed strict increase. -/
theorem refresh_expiresAt_decrease_counterexample :
    (refreshAccountToken wStFar "a" 0
      (BrokerOutcome.success (some "x") none (some 3600))).1.success = true ∧
    wStFar.store.map (fun a => a.tokenData.expiresAt) = [some 10000000] ∧
    ((refreshAccountToken wStFar "a" 0
      (BrokerOutcome.success (some "x") none (some 3600))).2.1.map
        (fun a => a.tokenData.expiresAt)) = [some 3600000] ∧
    (3600000 : Int) < 10000000 :=
  ⟨by decide, by decide, by decide, by decide⟩

/-- C6 (amended). A successful refresh rewrites the resolved record's
`expiresAt` to exactly `now + (expiresIn || 3600) seconds` — strictly
in the future of `now`, hence strictly above any already-expired value,
but NOT necessarily above the previous `expiresAt`; a failed refresh
leaves the store unchanged; `checkAccountHealth` persists the identical
update; and the activation tail of `switchToAccount` never changes the
written record's own `expiresAt`. -/
theorem refresh_expiresAt_update_amended
    (st : SwitchState) (name : String) (now : Int) (outcome : BrokerOutcome)
    (account : AccountInfo)
    (hf : (loadAccountsM st now).find? (matchesAccount name) = some account)
    (hc : credsB account.tokenData = true) :
    ((refreshOIDCToken outcome).success = true →
      ∀ b ∈ (refreshAccountToken st name now outcome).2.1, b.filename = account.filename →
        b.tokenData.expiresAt =
          some (now + (jsOrNat (refreshOIDCToken outcome).expiresIn 3600 : Int) * 1000)) ∧
    ((refreshOIDCToken outcome).success = true →
      ∀ e : Int, account.tokenData.expiresAt = some e → e ≤ now →
        e < now + (jsOrNat (refreshOIDCToken outcome).expiresIn 3600 : Int) * 1000) ∧
    ((refreshOIDCToken outcome).success = false →
      (refreshAccountToken st name now outcome).2.1 = st.store) ∧
    ((refreshOIDCToken outcome).success = true →
      (checkAccountHealth st name now outcome).2 =
        (refreshAccountToken st name now outcome).2.1) ∧
    (∀ (st2 : SwitchState) (f : String) (td : TokenData) (env : SwitchEnv)
       (b : AccountFile), b ∈ ((activateAndWrite st2 f td env).2).store →
       b.tokenData.expiresAt = td.expiresAt ∨ b ∈ st2.store) := by
  refine ⟨?_, ?_, ?_, ?_, ?_⟩
  · intro ho b hb hfn
    rw [refreshAccountToken_success hf hc ho] at hb
    obtain ⟨orig, ho2, rfl⟩ := List.mem_map.mp hb
    by_cases hof : orig.filename = account.filename
    · simp [hof, refreshedTokenData]
    · rw [if_neg hof] at hfn
      exact absurd hfn hof
  · intro ho e he hle
    have hpos : (0 : Int) < (jsOrNat (refreshOIDCToken outcome).expiresIn 3600 : Int) * 1000 := by
      have := jsOrNat_pos (refreshOIDCToken outcome).expiresIn
      positivity
    omega
  · intro ho
    rw [refreshAccountToken_fail hf hc ho]
  · intro ho
    have hc3 : (truthyO account.tokenData.clientId && truthyO account.tokenData.clientSecret &&
        truthyO account.tokenData.refreshToken) = true := by
      unfold credsB at hc
      simp only [Bool.and_eq_true] at hc ⊢
      exact ⟨⟨hc.1.2, hc.2⟩, hc.1.1⟩
    rw [refreshAccountToken_success hf hc ho]
    unfold checkAccountHealth
    rw [hf]
    simp [hc3, ho]
  · intro st2 f td env b hb
    rw [activateAndWrite_store] at hb
    by_cases hm : truthyO td.machineId
    · rw [if_pos hm] at hb
      exact Or.inr hb
    · rw [if_neg hm] at hb
      obtain ⟨orig, ho2, rfl⟩ := List.mem_map.mp hb
      by_cases hof : orig.filename = f
      · rw [if_pos hof]
        exact Or.inl rfl
      · rw [if_neg hof]
        exact Or.inr ho2

/-- Witness for the amended C6 at the concrete refresh of the far-future
account. -/
theorem refresh_expiresAt_update_amended_witness :
    ((loadAccountsM wStFar 0).find? (matchesAccount "a") =
       some (mkAccountInfo wStFar 0 ⟨"token-a.json", wTdFar⟩) ∧
     credsB (mkAccountInfo wStFar 0 ⟨"token-a.json", wTdFar⟩).tokenData = true) ∧
    ((refreshOIDCToken (BrokerOutcome.success (some "x") none (some 3600))).success = true →
      ∀ b ∈ (refreshAccountToken wStFar "a" 0
          (BrokerOutcome.success (some "x") none (some 3600))).2.1,
        b.filename = (mkAccountInfo wStFar 0 ⟨"token-a.json", wTdFar⟩).filename →
        b.tokenData.expiresAt =
          some ((0 : Int) +
            (jsOrNat (refreshOIDCToken
              (BrokerOutcome.success (some "x") none (some 3600))).expiresIn 3600 : Int) *
            1000)) :=
  ⟨⟨by decide, by decide⟩,
   (refresh_expiresAt_update_amended wStFar "a" 0
      (BrokerOutcome.success (some "x") none (some 3600))
      (mkAccountInfo wStFar 0 ⟨"token-a.json", wTdFar⟩)
      (by decide) (by decide)).1⟩

-- ===========================================================================
-- C5: deleteAccount
-- ===========================================================================

theorem alistLookup_erase_self {α : Type} (l : List (String × α)) (k : String) :
    alistLookup (alistErase l k) k = none := by
  unfold alistErase alistLookup
  rw [Option.map_eq_none']
  rw [List.find?_eq_none]
  intro p hp
  have := (List.mem_filter.mp hp).2
  simp only [Bool.not_eq_true'] at this
  simp [this]

theorem alistLookup_erase_none {α : Type} (l : List (String × α)) (k k' : String)
    (h : alistLookup l k' = none) : alistLookup (alistErase l k) k' = none := by
  unfold alistErase alistLookup at *
  rw [Option.map_eq_none'] at h ⊢
  rw [List.find?_eq_none] at h ⊢
  intro p hp
  exact h p (List.mem_filter.mp hp).1

theorem mem_eraseP_filename {l : List AccountFile} {fn : String}
    (hnd : (l.map AccountFile.filename).Nodup) :
    ∀ b ∈ l.eraseP (fun a => a.filename == fn), b.filename ≠ fn := by
  induction l with
  | nil => simp
  | cons a t ih =>
    by_cases ha : a.filename = fn
    · have hb : (a.filename == fn) = true := by simp [ha]
      rw [List.eraseP_cons, hb]
      intro b hbt hbfn
      have hmem : a.filename ∈ t.map AccountFile.filename := by
        rw [ha, ← hbfn]
        exact List.mem_map_of_mem _ hbt
      exact (List.nodup_cons.mp (by simpa using hnd)).1 hmem
    · have hb : (a.filename == fn) = false := by simp [ha]
      rw [List.eraseP_cons, hb]
      intro b hbt
      rcases List.mem_cons.mp hbt with rfl | hbt'
      · exact ha
      · exact ih (List.nodup_cons.mp (by simpa using hnd)).2 b hbt'

/-- C5 counterexample. Deleting the absent account `carol` from a store
holding only `bob` returns `false` (an error report), not an idempotent
success, and leaves the state unchanged — refuting the claimed
idempotent no-op. -/
theorem deleteAccount_nonexistent_counterexample :
    deleteAccount wStBob "carol" true false 0 = (false, wStBob) := by decide

/-- C5 (amended). `deleteAccount` on a resolved account returns `true`,
removes the account's token file (no file of that name remains, given
distinct file names) and removes the derived usage-stats entries for
the account's effective name and, when present, its e-mail; on a
non-existent account it returns `false` — reporting an error rather
than succeeding as an idempotent no-op — and leaves the state
unchanged. -/
theorem deleteAccount_behavior_amended
    (st : SwitchState) (name : String) (now : Int) :
    (((loadAccountsM st now).find? (matchesDelete name) = none) →
       deleteAccount st name true false now = (false, st)) ∧
    (∀ account, (loadAccountsM st now).find? (matchesDelete name) = some account →
       (st.store.map AccountFile.filename).Nodup →
       (deleteAccount st name true false now).1 = true ∧
       (∀ b ∈ (deleteAccount st name true false now).2.store,
          b.filename ≠ account.filename) ∧
       alistLookup (deleteAccount st name true false now).2.usageStats
         (jsOr account.tokenData.accountName (jsOr account.tokenData.email name)) = none ∧
       (truthyO account.tokenData.email = true →
         alistLookup (deleteAccount st name true false now).2.usageStats
           (account.tokenData.email.getD "") = none) ∧
       (deleteAccount st name true false now).2.kiroToken = st.kiroToken ∧
       (deleteAccount st name true false now).2.machineIdFile = st.machineIdFile) := by
  constructor
  · intro h
    unfold deleteAccount
    rw [h]
  · intro account hf hnd
    unfold deleteAccount
    rw [hf]
    simp only [false_and, if_neg (fun h : (true = false ∧ false = false) => by cases h.1)]
    refine ⟨rfl, ?_, ?_, ?_, rfl, rfl⟩
    · exact fun b hb => mem_eraseP_filename hnd b hb
    · set accName := jsOr account.tokenData.accountName (jsOr account.tokenData.email name)
      by_cases he : truthyO account.tokenData.email = true ∧
          (alistLookup (alistErase st.usageStats accName)
            (account.tokenData.email.getD "")).isSome
      · rw [if_pos he]
        exact alistLookup_erase_none _ _ _ (alistLookup_erase_self _ _)
      · rw [if_neg he]
        exact alistLookup_erase_self _ _
    · intro hemail
      set accName := jsOr account.tokenData.accountName (jsOr account.tokenData.email name)
      by_cases he : truthyO account.tokenData.email = true ∧
          (alistLookup (alistErase st.usageStats accName)
            (account.tokenData.email.getD "")).isSome
      · rw [if_pos he]
        exact alistLookup_erase_self _ _
      · rw [if_neg he]
        have : ¬(alistLookup (alistErase st.usageStats accName)
            (account.tokenData.email.getD "")).isSome := fun hs => he ⟨hemail, hs⟩
        rw [Option.not_isSome_iff_eq_none] at this
        exact this

/-- Witness for the amended C5: deleting `bob` succeeds and removes the
token file and the stats entry; the hypotheses hold concretely. -/
theorem deleteAccount_behavior_amended_witness :
    ((loadAccountsM wStBob 0).find? (matchesDelete "bob") =
       some (mkAccountInfo wStBob 0 ⟨"token-bob.json", wTdBob⟩) ∧
     (wStBob.store.map AccountFile.filename).Nodup) ∧
    ((deleteAccount wStBob "bob" true false 0).1 = true ∧
     (∀ b ∈ (deleteAccount wStBob "bob" true false 0).2.store,
        b.filename ≠ (mkAccountInfo wStBob 0 ⟨"token-bob.json", wTdBob⟩).filename) ∧
     alistLookup (deleteAccount wStBob "bob" true false 0).2.usageStats
       (jsOr (mkAccountInfo wStBob 0 ⟨"token-bob.json", wTdBob⟩).tokenData.accountName
         (jsOr (mkAccountInfo wStBob 0 ⟨"token-bob.json", wTdBob⟩).tokenData.email "bob")) =
       none ∧
     (truthyO (mkAccountInfo wStBob 0 ⟨"token-bob.json", wTdBob⟩).tokenData.email = true →
       alistLookup (deleteAccount wStBob "bob" true false 0).2.usageStats
         ((mkAccountInfo wStBob 0 ⟨"token-bob.json", wTdBob⟩).tokenData.email.getD "") =
         none) ∧
     (deleteAccount wStBob "bob" true false 0).2.kiroToken = wStBob.kiroToken ∧
     (deleteAccount wStBob "bob" true false 0).2.machineIdFile = wStBob.machineIdFile) :=
  ⟨⟨by decide, by decide⟩,
   (deleteAccount_behavior_amended wStBob "bob" 0).2
     (mkAccountInfo wStBob 0 ⟨"token-bob.json", wTdBob⟩) (by decide) (by decide)⟩

-- ===========================================================================
-- C8: refresh-failure branches of the switch
-- ===========================================================================

/-- C8 counterexample. A refresh failure classified
`ExpiredTokenException` (no ban message) does NOT abort the switch: with
the stored token still inside the grace window the concrete switch
falls back to the existing token and succeeds, refuting the claim that
`ExpiredToken` is a fatal classification. -/
theorem switch_expiredToken_not_fatal_counterexample :
    (refreshOIDCToken wEnvExpired.brokerOutcome).success = false ∧
    (refreshOIDCToken wEnvExpired.brokerOutcome).error =
      some OIDCErrorType.ExpiredTokenException ∧
    (refreshOIDCToken wEnvExpired.brokerOutcome).isBanned = some false ∧
    (switchToAccount wStFar "a" wEnvExpired).result.success = true :=
  ⟨by decide, by decide, by decide, by decide⟩

/-- C8 (amended). On a refresh failure inside `switchToAccount`, the
fatal classifications are exactly a ban classification
(`isBanned = true`, i.e. `isBlockedAccessError`) and
`InvalidGrantException` — each aborts without activating; EVERY other
failure (including `ExpiredTokenException`, `InvalidClientException`,
rate limiting and network errors) falls back to activating with the
existing stored token if and only if the token is not truly invalid
(within the 3-minute grace window past `expiresAt`); past the window
the switch aborts with the refresh classification. -/
theorem switch_refresh_failure_branches_amended
    (st : SwitchState) (name : String) (env : SwitchEnv) (account : AccountInfo)
    (hf : (loadAccountsM st env.now).find? (matchesAccount name) = some account)
    (hc : credsB account.tokenData = true)
    (ho : (refreshOIDCToken env.brokerOutcome).success = false) :
    ((refreshOIDCToken env.brokerOutcome).isBanned = some true →
      (switchToAccount st name env).result =
        { success := false, error := (refreshOIDCToken env.brokerOutcome).error,
          errorMessage := some "Account is banned", isBanned := some true } ∧
      (switchToAccount st name env).state = st) ∧
    ((refreshOIDCToken env.brokerOutcome).isBanned ≠ some true →
     (refreshOIDCToken env.brokerOutcome).error = some OIDCErrorType.InvalidGrantException →
      (switchToAccount st name env).result.success = false ∧
      (switchToAccount st name env).state = st) ∧
    ((refreshOIDCToken env.brokerOutcome).isBanned ≠ some true →
     (refreshOIDCToken env.brokerOutcome).error ≠ some OIDCErrorType.InvalidGrantException →
     isTokenTrulyInvalid account.tokenData env.now = true →
      (switchToAccount st name env).result =
        { success := false, error := (refreshOIDCToken env.brokerOutcome).error,
          errorMessage := (refreshOIDCToken env.brokerOutcome).errorMessage,
          isBanned := (refreshOIDCToken env.brokerOutcome).isBanned } ∧
      (switchToAccount st name env).state = st) ∧
    ((refreshOIDCToken env.brokerOutcome).isBanned ≠ some true →
     (refreshOIDCToken env.brokerOutcome).error ≠ some OIDCErrorType.InvalidGrantException →
     isTokenTrulyInvalid account.tokenData env.now = false →
     env.writeOk = true →
      (switchToAccount st name env).result.success = true ∧
      (switchToAccount st name env).state.kiroToken =
        some (materializeKiro account.tokenData)) := by
  refine ⟨?_, ?_, ?_, ?_⟩
  · intro hbn
    rw [switchToAccount_refreshFail_banned hf hc ho hbn]
    exact ⟨rfl, rfl⟩
  · intro hbn hig
    rw [switchToAccount_refreshFail_invalidGrant hf hc ho hbn hig]
    exact ⟨rfl, rfl⟩
  · intro hbn hig hti
    rw [switchToAccount_refreshFail_trulyInvalid hf hc ho hbn hig hti]
    exact ⟨rfl, rfl⟩
  · intro hbn hig hti hw
    rw [switchToAccount_refreshFail_fallback hf hc ho hbn hig hti]
    constructor
    · show (activateAndWrite st account.filename account.tokenData env).1.success = true
      rw [activateAndWrite_result, if_pos hw]
    · show ((activateAndWrite st account.filename account.tokenData env).2).kiroToken = _
      exact activateAndWrite_kiroToken st account.filename account.tokenData env hw

/-- Witness for the amended C8 at the concrete `ExpiredTokenException`
fallback. -/
theorem switch_refresh_failure_branches_amended_witness :
    ((loadAccountsM wStFar wEnvExpired.now).find? (matchesAccount "a") =
       some (mkAccountInfo wStFar wEnvExpired.now ⟨"token-a.json", wTdFar⟩) ∧
     credsB (mkAccountInfo wStFar wEnvExpired.now ⟨"token-a.json", wTdFar⟩).tokenData = true ∧
     (refreshOIDCToken wEnvExpired.brokerOutcome).success = false ∧
     (refreshOIDCToken wEnvExpired.brokerOutcome).isBanned ≠ some true ∧
     (refreshOIDCToken wEnvExpired.brokerOutcome).error ≠
       some OIDCErrorType.InvalidGrantException ∧
     isTokenTrulyInvalid
       (mkAccountInfo wStFar wEnvExpired.now ⟨"token-a.json", wTdFar⟩).tokenData
       wEnvExpired.now = false ∧
     wEnvExpired.writeOk = true) ∧
    ((switchToAccount wStFar "a" wEnvExpired).result.success = true ∧
     (switchToAccount wStFar "a" wEnvExpired).state.kiroToken =
       some (materializeKiro
         (mkAccountInfo wStFar wEnvExpired.now ⟨"token-a.json", wTdFar⟩).tokenData)) :=
  ⟨⟨by decide, by decide, by decide, by decide, by decide, by decide, by decide⟩,
   (switch_refresh_failure_branches_amended wStFar "a" wEnvExpired
      (mkAccountInfo wStFar wEnvExpired.now ⟨"token-a.json", wTdFar⟩)
      (by decide) (by decide) (by decide)).2.2.2
     (by decide) (by decide) (by decide) (by decide)⟩

-- ===========================================================================
-- C4: machine-id stability and persistence
-- ===========================================================================

theorem truthyO_some_ne {s : String} (h : s ≠ "") : truthyO (some s) = true := by
  unfold truthyO
  cases he : s.isEmpty
  · simp [he]
  · exact absurd ((String.isEmpty_iff s).mp he) h

theorem getAccountMachineId_congr {td td' : TokenData} (fresh : String)
    (h : td.machineId = td'.machineId) :
    getAccountMachineId td fresh = getAccountMachineId td' fresh := by
  unfold getAccountMachineId
  rw [h]

theorem store_unique_entry {st : SwitchState} {now : Int} {p : AccountInfo → Bool}
    {account : AccountInfo}
    (hf : (loadAccountsM st now).find? p = some account)
    (hnd : (st.store.map AccountFile.filename).Nodup) :
    ∀ b ∈ st.store, b.filename = account.filename → b.tokenData = account.tokenData := by
  obtain ⟨f, hfst, hffn, hftd⟩ := find_resolves_store hf
  intro b hb hbf
  have hbe : b = f := by
    apply List.inj_on_of_nodup_map hnd hb hfst
    rw [hbf, hffn]
  rw [hbe, hftd]

theorem store_entry_machineId_after_activate
    {S : SwitchState} {fn : String} {td : TokenData} {env : SwitchEnv}
    (hS : ∀ b ∈ S.store, b.filename = fn → b.tokenData.machineId = td.machineId) :
    ∀ b ∈ ((activateAndWrite S fn td env).2).store, b.filename = fn →
      b.tokenData.machineId = some (getAccountMachineId td env.freshMachineId) := by
  intro b hb hfn
  rw [activateAndWrite_store] at hb
  by_cases hm : truthyO td.machineId = true
  · rw [if_pos hm] at hb
    have heq := hS b hb hfn
    rcases htd : td.machineId with _ | m
    · rw [htd] at hm
      simp [truthyO] at hm
    · rw [heq, htd]
      rw [htd] at hm
      simp [getAccountMachineId, htd, hm]
  · have hm' : truthyO td.machineId = false := by simpa using hm
    rw [if_neg (by simp [hm'])] at hb
    obtain ⟨orig, ho2, rfl⟩ := List.mem_map.mp hb
    by_cases hof : orig.filename = fn
    · simp [hof]
    · rw [if_neg hof] at hfn
      exact absurd hfn hof

theorem store_machineId_after_activate_fresh
    {S : SwitchState} {fn : String} {td : TokenData} {env : SwitchEnv}
    (hm : truthyO td.machineId = false) :
    ∀ b ∈ ((activateAndWrite S fn td env).2).store, b.filename = fn →
      b.tokenData.machineId = some (getAccountMachineId td env.freshMachineId) := by
  intro b hb hfn
  rw [activateAndWrite_store, if_neg (by simp [hm])] at hb
  obtain ⟨orig, ho2, rfl⟩ := List.mem_map.mp hb
  by_cases hof : orig.filename = fn
  · simp [hof]
  · rw [if_neg hof] at hfn
    exact absurd hfn hof

/-- Every successful switch runs the activation tail on the resolved
account's file name with a token record whose device identifier is the
resolved account's, over a state whose matching store entries carry that
same identifier (given distinct file names). -/
theorem switchToAccount_success_shape
    {st : SwitchState} {name : String} {env : SwitchEnv} {account : AccountInfo}
    (hf : (loadAccountsM st env.now).find? (matchesAccount name) = some account)
    (hsucc : (switchToAccount st name env).result.success = true) :
    ∃ (S : SwitchState) (td : TokenData),
      (switchToAccount st name env).state = (activateAndWrite S account.filename td env).2 ∧
      td.machineId = account.tokenData.machineId ∧
      ((st.store.map AccountFile.filename).Nodup →
        ∀ b ∈ S.store, b.filename = account.filename →
          b.tokenData.machineId = account.tokenData.machineId) := by
  by_cases hc : credsB account.tokenData = true
  · by_cases hs : (refreshOIDCToken env.brokerOutcome).success = true
    · by_cases hb : (checkAccountBanViaAPI env.banOutcome).isBanned = true
      · rw [switchToAccount_refreshSuccess_banned hf hc hs hb] at hsucc
        simp at hsucc
      · have hb' : (checkAccountBanViaAPI env.banOutcome).isBanned = false := by
          simpa using hb
        refine ⟨{ st with store := (refreshAccountToken st name env.now env.brokerOutcome).2.1 },
          refreshedTokenData account.tokenData (refreshOIDCToken env.brokerOutcome) env.now,
          ?_, rfl, ?_⟩
        · rw [switchToAccount_refreshSuccess_notBanned hf hc hs hb']
        · intro _ b hb2 hbf
          rw [refreshAccountToken_success hf hc hs] at hb2
          obtain ⟨orig, ho2, rfl⟩ := List.mem_map.mp hb2
          by_cases hof : orig.filename = account.filename
          · simp [hof, refreshedTokenData]
          · rw [if_neg hof] at hbf
            exact absurd hbf hof
    · have hs' : (refreshOIDCToken env.brokerOutcome).success = false := by simpa using hs
      by_cases hbn : (refreshOIDCToken env.brokerOutcome).isBanned = some true
      · rw [switchToAccount_refreshFail_banned hf hc hs' hbn] at hsucc
        simp at hsucc
      · by_cases hig : (refreshOIDCToken env.brokerOutcome).error =
            some OIDCErrorType.InvalidGrantException
        · rw [switchToAccount_refreshFail_invalidGrant hf hc hs' hbn hig] at hsucc
          simp at hsucc
        · by_cases hti : isTokenTrulyInvalid account.tokenData env.now = true
          · rw [switchToAccount_refreshFail_trulyInvalid hf hc hs' hbn hig hti] at hsucc
            simp at hsucc
          · have hti' : isTokenTrulyInvalid account.tokenData env.now = false := by
              simpa using hti
            refine ⟨st, account.tokenData, ?_, rfl, ?_⟩
            · rw [switchToAccount_refreshFail_fallback hf hc hs' hbn hig hti']
            · intro hnd b hb2 hbf
              rw [store_unique_entry hf hnd b hb2 hbf]
  · have hc' : credsB account.tokenData = false := by simpa using hc
    refine ⟨st, account.tokenData, ?_, rfl, ?_⟩
    · rw [switchToAccount_noCreds hf hc']
    · intro hnd b hb2 hbf
      rw [store_unique_entry hf hnd b hb2 hbf]

theorem switchToAccount_success_machineIdFile
    {st : SwitchState} {name : String} {env : SwitchEnv} {account : AccountInfo}
    (hf : (loadAccountsM st env.now).find? (matchesAccount name) = some account)
    (hsucc : (switchToAccount st name env).result.success = true) :
    (switchToAccount st name env).state.machineIdFile =
      some (getAccountMachineId account.tokenData env.freshMachineId) := by
  obtain ⟨S, td, heq, hmid, -⟩ := switchToAccount_success_shape hf hsucc
  rw [heq, activateAndWrite_machineIdFile, getAccountMachineId_congr env.freshMachineId hmid]

theorem switchToAccount_success_store_machineId
    {st : SwitchState} {name : String} {env : SwitchEnv} {account : AccountInfo}
    (hf : (loadAccountsM st env.now).find? (matchesAccount name) = some account)
    (hsucc : (switchToAccount st name env).result.success = true)
    (hnd : (st.store.map AccountFile.filename).Nodup) :
    ∀ b ∈ (switchToAccount st name env).state.store, b.filename = account.filename →
      b.tokenData.machineId =
        some (getAccountMachineId account.tokenData env.freshMachineId) := by
  obtain ⟨S, td, heq, hmid, hstore⟩ := switchToAccount_success_shape hf hsucc
  rw [heq]
  intro b hb hbf
  rw [← getAccountMachineId_congr env.freshMachineId hmid]
  refine store_entry_machineId_after_activate ?_ b hb hbf
  intro b2 hb2 hbf2
  rw [hstore hnd b2 hb2 hbf2, hmid]

/-- C4. The device identifier: (1) a record that already carries a
(truthy) `_machineId` resolves to that stored value unchanged; (2) a
record without one resolves to the freshly generated id; (3) a
successful switch of a record without one persists the fresh id both in
the machine-id file and on every store entry of that token file; (4)
two successful `switchToAccount` calls on the same name, with the
second resolving the same token file (distinct file names, non-empty
generated ids), leave the same device identifier in the machine-id
file both times. -/
theorem machineId_stability_and_persistence :
    (∀ (td : TokenData) (fresh m : String), td.machineId = some m → m ≠ "" →
      getAccountMachineId td fresh = m) ∧
    (∀ (td : TokenData) (fresh : String), td.machineId = none →
      getAccountMachineId td fresh = fresh) ∧
    (∀ (st : SwitchState) (name : String) (env : SwitchEnv) (account : AccountInfo),
      (loadAccountsM st env.now).find? (matchesAccount name) = some account →
      (switchToAccount st name env).result.success = true →
      truthyO account.tokenData.machineId = false →
      (switchToAccount st name env).state.machineIdFile = some env.freshMachineId ∧
      (∀ b ∈ (switchToAccount st name env).state.store, b.filename = account.filename →
        b.tokenData.machineId = some env.freshMachineId)) ∧
    (∀ (st : SwitchState) (name : String) (env env' : SwitchEnv) (a1 a2 : AccountInfo),
      (st.store.map AccountFile.filename).Nodup →
      env.freshMachineId ≠ "" →
      (loadAccountsM st env.now).find? (matchesAccount name) = some a1 →
      (switchToAccount st name env).result.success = true →
      (loadAccountsM (switchToAccount st name env).state env'.now).find?
        (matchesAccount name) = some a2 →
      a2.filename = a1.filename →
      (switchToAccount (switchToAccount st name env).state name env').result.success = true →
      (switchToAccount (switchToAccount st name env).state name env').state.machineIdFile =
        (switchToAccount st name env).state.machineIdFile) := by
  refine ⟨?_, ?_, ?_, ?_⟩
  · intro td fresh m h hne
    unfold getAccountMachineId
    rw [h]
    simp [truthyO_some_ne hne]
  · intro td fresh h
    simp [getAccountMachineId, h, truthyO]
  · intro st name env account hf hsucc hm
    constructor
    · rw [switchToAccount_success_machineIdFile hf hsucc]
      simp [getAccountMachineId, hm]
    · intro b hb hbf
      obtain ⟨S, td, heq, hmid, -⟩ := switchToAccount_success_shape hf hsucc
      have hm' : truthyO td.machineId = false := by rw [hmid]; exact hm
      rw [heq] at hb
      have := store_machineId_after_activate_fresh hm' b hb hbf
      rw [this]
      simp [getAccountMachineId, hm']
  · intro st name env env' a1 a2 hnd hfr hf1 hs1 hf2 hff hs2
    have h1 := switchToAccount_success_machineIdFile hf1 hs1
    have hstore := switchToAccount_success_store_machineId hf1 hs1 hnd
    obtain ⟨b, hbst, hbfn, hbtd⟩ := find_resolves_store hf2
    have hmid : a2.tokenData.machineId =
        some (getAccountMachineId a1.tokenData env.freshMachineId) := by
      rw [← hbtd]
      exact hstore b hbst (by rw [hbfn, hff])
    have hid1ne : getAccountMachineId a1.tokenData env.freshMachineId ≠ "" := by
      unfold getAccountMachineId
      by_cases hm : truthyO a1.tokenData.machineId = true
      · rw [if_pos hm]
        rcases htd : a1.tokenData.machineId with _ | m
        · rw [htd] at hm
          simp [truthyO] at hm
        · rw [htd] at hm
          intro hc
          simp only [Option.getD_some] at hc
          rw [hc] at hm
          simp [truthyO] at hm
          exact absurd hm (by decide)
      · rw [if_neg hm]
        exact hfr
    have htr : truthyO a2.tokenData.machineId = true := by
      rw [hmid]
      exact truthyO_some_ne hid1ne
    have h2 := switchToAccount_success_machineIdFile hf2 hs2
    rw [h2, h1]
    congr 1
    unfold getAccountMachineId
    rw [if_pos htr, hmid]
    rfl

/-- Witness for C4: switching to `bob` (a record without a stored id)
persists the fresh id `mid-1` on the machine-id file and the record. -/
theorem machineId_stability_and_persistence_witness :
    ((loadAccountsM wStBob wEnvOk.now).find? (matchesAccount "bob") =
       some (mkAccountInfo wStBob wEnvOk.now ⟨"token-bob.json", wTdBob⟩) ∧
     (switchToAccount wStBob "bob" wEnvOk).result.success = true ∧
     truthyO (mkAccountInfo wStBob wEnvOk.now
       ⟨"token-bob.json", wTdBob⟩).tokenData.machineId = false) ∧
    ((switchToAccount wStBob "bob" wEnvOk).state.machineIdFile =
       some wEnvOk.freshMachineId ∧
     (∀ b ∈ (switchToAccount wStBob "bob" wEnvOk).state.store,
        b.filename = (mkAccountInfo wStBob wEnvOk.now ⟨"token-bob.json", wTdBob⟩).filename →
        b.tokenData.machineId = some wEnvOk.freshMachineId)) :=
  ⟨⟨by decide, by decide, by decide⟩,
   machineId_stability_and_persistence.2.2.1 wStBob "bob" wEnvOk
     (mkAccountInfo wStBob wEnvOk.now ⟨"token-bob.json", wTdBob⟩)
     (by decide) (by decide) (by decide)⟩
